import Mathlib

/-
Shallow embedding of src/src/core/specials.c (the special-form compilation
layer of the Janet bytecode compiler, 2018 tree).

The file `specials.c` is the only source file of the repository that is
present; the collaborators it calls (compile.c, emit.c, the vector macros and
the core value accessors) are external and are modelled from the spec where a
claim needs them.  Every such definition carries a doc comment starting with
"Modelled from the spec:".  All definitions that correspond to code in
specials.c are direct translations and keep the C names.

The generic expression compiler `janetc_value` is a collaborator that the
handlers call back into recursively; it is passed to each handler as an
explicit function argument of type `Value`, so theorems quantify over its
behavior through equation hypotheses.
-/

set_option maxHeartbeats 1600000

namespace JanetSpecials

/-- Janet values: a dynamically tagged datum (spec section 3).  Mutable
reference identity of arrays/tables is not needed by the compilation layer
modelled here, so aggregates carry their contents. -/
inductive Janet where
  | nil : Janet
  | boolean : Bool → Janet
  | number : Int → Janet
  | string : String → Janet
  | symbol : String → Janet
  | keyword : String → Janet
  | tuple : List Janet → Janet
  | array : List Janet → Janet
  | struct : List (Janet × Janet) → Janet
  | table : List (Janet × Janet) → Janet

instance : Inhabited Janet := ⟨Janet.nil⟩

/-- janet_truthy: nil and boolean false are the only falsy values. -/
def janet_truthy : Janet → Bool
  | Janet.nil => false
  | Janet.boolean b => b
  | _ => true

/-- janet_checktype(x, JANET_NIL). -/
def janet_checktype_nil : Janet → Bool
  | Janet.nil => true
  | _ => false

/-- janet_checktype(x, JANET_SYMBOL). -/
def janet_checktype_symbol : Janet → Bool
  | Janet.symbol _ => true
  | _ => false

/-- janet_checktype(x, JANET_TUPLE). -/
def janet_checktype_tuple : Janet → Bool
  | Janet.tuple _ => true
  | _ => false

/-- janet_unwrap_symbol for values known to be symbols. -/
def symName : Janet → String
  | Janet.symbol s => s
  | _ => ""

/-- janet_indexed_view: tuples and arrays expose an indexed view. -/
def janet_indexed_view : Janet → Option (List Janet)
  | Janet.tuple xs => some xs
  | Janet.array xs => some xs
  | _ => none

/-- janet_dictionary_view: tables and structs expose their backing storage,
including tombstoned (nil-keyed) capacity slots. -/
def janet_dictionary_view : Janet → Option (List (Janet × Janet))
  | Janet.table kvs => some kvs
  | Janet.struct kvs => some kvs
  | _ => none

/-- A compile-time attribute table (JanetTable used as metadata), with a
prototype chain.  Aliasing of the mutable table is not observable in this
layer. -/
inductive JTable where
  | mk : List (Janet × Janet) → Option JTable → JTable

instance : Inhabited JTable := ⟨JTable.mk [] none⟩

def JTable.entries : JTable → List (Janet × Janet)
  | .mk e _ => e

/-- janet_table_put (modelled as shadowing prepend; only lookups through the
newest binding are observable, and this layer performs none). -/
def JTable.put : JTable → Janet → Janet → JTable
  | .mk e p, k, v => .mk ((k, v) :: e) p

/-- A compile-time slot: a register handle or an embedded constant (spec
section 3, struct JanetSlot). -/
structure JanetSlot where
  flags : Nat
  index : Int
  envindex : Int
  constant : Janet

instance : Inhabited JanetSlot := ⟨⟨0, -1, -1, Janet.nil⟩⟩

/-- Modelled from the spec: slot attribute bits (compile.h is not part of
src; the exact numeric values are owned by it, only distinctness matters). -/
def JANET_SLOT_CONSTANT : Nat := 0x10000

def JANET_SLOT_NAMED : Nat := 0x20000

def JANET_SLOT_MUTABLE : Nat := 0x40000

def JANET_SLOT_RETURNED : Nat := 0x100000

/-- Modelled from the spec: the JANET_FUNCTION type tag ORed into a slot's
flag word by the self-reference binding (janet.h is not part of src). -/
def JANET_FUNCTION : Nat := 13

/-- Modelled from the spec: compilation-option flag bits (compile.h is not
part of src). -/
def JANET_FOPTS_TAIL : Nat := 0x10000

def JANET_FOPTS_HINT : Nat := 0x20000

def JANET_FOPTS_DROP : Nat := 0x40000

/-- Modelled from the spec: scope attribute bits (compile.h is not part of
src). -/
def JANET_SCOPE_TOP : Nat := 1

def JANET_SCOPE_FUNCTION : Nat := 2

def JANET_SCOPE_UNUSED : Nat := 4

def JANET_SCOPE_CLOSURE : Nat := 8

/-- Modelled from the spec: function-definition flag bits (janet.h is not
part of src). -/
def JANET_FUNCDEF_FLAG_VARARG : Nat := 1

def JANET_FUNCDEF_FLAG_FIXARITY : Nat := 2

/-- Modelled from the spec: opcode bytes (janet.h is not part of src; the
numbering is owned by the external emitter, only distinctness matters). -/
def JOP_LOAD_CONSTANT : Nat := 10

def JOP_MOVE : Nat := 11

def JOP_GET_INDEX : Nat := 12

def JOP_GET : Nat := 13

def JOP_PUT : Nat := 14

def JOP_PUT_INDEX : Nat := 15

def JOP_JUMP : Nat := 16

def JOP_JUMP_IF : Nat := 17

def JOP_JUMP_IF_NOT : Nat := 18

def JOP_RETURN_NIL : Nat := 19

def JOP_LOAD_SELF : Nat := 20

def JOP_TAILCALL : Nat := 21

def JOP_CLOSURE : Nat := 22

def JOP_CALL : Nat := 23

def TWO32 : Nat := 4294967296

/-- Bitwise complement within a 32-bit word (the C `~` on flag words). -/
def NOT32 (m : Nat) : Nat := (TWO32 - 1) ^^^ m

/-- janetc_cslot: wrap a value as a compile-time constant slot. -/
def janetc_cslot (v : Janet) : JanetSlot :=
  { flags := JANET_SLOT_CONSTANT, index := -1, envindex := -1, constant := v }

/-- Compilation options passed to every compile entry point (the compiler
pointer of the C struct is replaced by explicit state passing). -/
structure JanetFopts where
  flags : Nat
  hint : JanetSlot

instance : Inhabited JanetFopts := ⟨⟨0, janetc_cslot Janet.nil⟩⟩

/-- Modelled from the spec: janetc_fopts_default (compile.c is not part of
src): no flags, nil hint. -/
def janetc_fopts_default : JanetFopts :=
  { flags := 0, hint := janetc_cslot Janet.nil }

/-- A finalized function definition (spec section 3, FuncDef). -/
inductive JanetFuncDef where
  | mk : Nat → Int → Option String → List Nat → List JanetFuncDef → Int → JanetFuncDef

instance : Inhabited JanetFuncDef := ⟨JanetFuncDef.mk 0 0 none [] [] 0⟩

def JanetFuncDef.fdflags : JanetFuncDef → Nat
  | .mk f _ _ _ _ _ => f

def JanetFuncDef.arity : JanetFuncDef → Int
  | .mk _ a _ _ _ _ => a

def JanetFuncDef.fdname : JanetFuncDef → Option String
  | .mk _ _ n _ _ _ => n

def JanetFuncDef.bytecode : JanetFuncDef → List Nat
  | .mk _ _ _ b _ _ => b

def JanetFuncDef.fdefs : JanetFuncDef → List JanetFuncDef
  | .mk _ _ _ _ d _ => d

def JanetFuncDef.slotcount : JanetFuncDef → Int
  | .mk _ _ _ _ _ s => s

def JanetFuncDef.withArity : JanetFuncDef → Int → JanetFuncDef
  | .mk f _ n b d s, a => .mk f a n b d s

def JanetFuncDef.orFlags : JanetFuncDef → Nat → JanetFuncDef
  | .mk f a n b d s, m => .mk (f ||| m) a n b d s

def JanetFuncDef.withName : JanetFuncDef → String → JanetFuncDef
  | .mk f a _ b d s, n => .mk f a (some n) b d s

def JanetFuncDef.withSlotcount : JanetFuncDef → Int → JanetFuncDef
  | .mk f a n b d _, s => .mk f a n b d s

/-- A lexical scope (spec section 3, JanetScope).  Register-allocator state
(a monotone cursor and a freed list, since the allocator's internal bit
tracking is out of scope per the spec) lives on FUNCTION scopes. -/
structure JanetScope where
  flags : Nat
  name : String
  bindings : List (String × JanetSlot)
  defs : List JanetFuncDef
  raNext : Nat
  raFreed : List Nat
  bytecodeStart : Nat

instance : Inhabited JanetScope :=
  ⟨{ flags := 0, name := "", bindings := [], defs := [], raNext := 0, raFreed := [],
     bytecodeStart := 0 }⟩

/-- The compiler state threaded through every handler: instruction buffer,
parallel source-map buffer, scope stack (head is the innermost scope), the
top-level environment table, and the compile result status. -/
structure JanetCompiler where
  buffer : List Nat
  mapbuffer : List Nat
  scopes : List JanetScope
  env : List (Janet × Janet)
  status : Bool
  errMsg : Option String

instance : Inhabited JanetCompiler :=
  ⟨{ buffer := [], mapbuffer := [], scopes := [], env := [], status := false, errMsg := none }⟩

def JanetCompiler.curScope (c : JanetCompiler) : JanetScope := c.scopes.headD default

def JanetCompiler.setCurScope (c : JanetCompiler) (s : JanetScope) : JanetCompiler :=
  { c with scopes := s :: c.scopes.tail }

/-- c->scope->flags |= m (used by `fn` and `while` on the current scope). -/
def scopeAddFlags (c : JanetCompiler) (m : Nat) : JanetCompiler :=
  c.setCurScope { c.curScope with flags := c.curScope.flags ||| m }

/-- janetc_cerror: record a compile error (the later error message wins, and
the status stays set, matching janetc_error in compile.c's interface). -/
def janetc_cerror (c : JanetCompiler) (m : String) : JanetCompiler :=
  { c with status := true, errMsg := some m }

/-- Modelled from the spec: janetc_scope (compile.c is not part of src):
push a lexical scope; a FUNCTION scope starts a fresh register window and
records where its bytecode begins. -/
def janetc_scope (c : JanetCompiler) (flags : Nat) (name : String) : JanetCompiler :=
  let s : JanetScope :=
    { flags := flags, name := name, bindings := [], defs := [], raNext := 0, raFreed := [],
      bytecodeStart := c.buffer.length }
  { c with scopes := s :: c.scopes }

/-- Modelled from the spec: janetc_popscope (compile.c is not part of src):
pop the current scope, propagating the CLOSURE flag to the parent unless the
popped scope was discarded (UNUSED). -/
def janetc_popscope (c : JanetCompiler) : JanetCompiler :=
  match c.scopes with
  | [] => c
  | s :: rest =>
    match rest with
    | [] => { c with scopes := [] }
    | p :: rest2 =>
      let p :=
        if s.flags &&& JANET_SCOPE_CLOSURE != 0 && (s.flags &&& JANET_SCOPE_UNUSED == 0) then
          { p with flags := p.flags ||| JANET_SCOPE_CLOSURE }
        else p
      { c with scopes := p :: rest2 }

/-- Modelled from the spec: janetc_popscope_keepslot keeps one live slot
across the pop; the model's pop releases no registers, so only the flag
propagation of a plain pop happens. -/
def janetc_popscope_keepslot (c : JanetCompiler) (_keep : JanetSlot) : JanetCompiler :=
  janetc_popscope c

/-- Index of the nearest scope carrying the FUNCTION flag, walking from the
innermost scope outward (the walk of janetc_addfuncdef). -/
def findFuncScope : List JanetScope → Option Nat
  | [] => none
  | s :: rest =>
    if s.flags &&& JANET_SCOPE_FUNCTION != 0 then some 0
    else (findFuncScope rest).map (· + 1)

def findFuncScopeIdx (c : JanetCompiler) : Option Nat :=
  findFuncScope c.scopes

/-- Modelled from the spec: allocate a fresh register in the register window
of the nearest enclosing function scope (the allocator's internal bit
tracking is out of scope; a monotone cursor is used, so the cursor is also
the window's high-water mark). -/
def janetc_regalloc_temp (c : JanetCompiler) : Nat × JanetCompiler :=
  match findFuncScopeIdx c with
  | none => (0, c)
  | some j =>
    let s := c.scopes.getD j default
    (s.raNext, { c with scopes := c.scopes.set j { s with raNext := s.raNext + 1 } })

/-- Modelled from the spec: mark a register free for reuse. -/
def janetc_regalloc_free (c : JanetCompiler) (r : Nat) : JanetCompiler :=
  match findFuncScopeIdx c with
  | none => c
  | some j =>
    let s := c.scopes.getD j default
    { c with scopes := c.scopes.set j { s with raFreed := r :: s.raFreed } }

/-- Modelled from the spec: janetc_farslot wraps a fresh far register of the
current function scope as a slot. -/
def janetc_farslot (c : JanetCompiler) : JanetSlot × JanetCompiler :=
  let (r, c) := janetc_regalloc_temp c
  ({ flags := 0, index := (r : Int), envindex := -1, constant := Janet.nil }, c)

/-- Modelled from the spec: janetc_freeslot marks a slot's register free;
constants, named slots and slots borrowed from an enclosing frame are not
registers of this window and are left alone. -/
def janetc_freeslot (c : JanetCompiler) (s : JanetSlot) : JanetCompiler :=
  if s.flags &&& (JANET_SLOT_CONSTANT ||| JANET_SLOT_NAMED) != 0 then c
  else if s.envindex ≥ 0 then c
  else if s.index < 0 then c
  else janetc_regalloc_free c s.index.toNat

/-- Modelled from the spec: janetc_nameslot binds a name to a slot in the
current scope, marking the stored slot NAMED. -/
def janetc_nameslot (c : JanetCompiler) (n : String) (s : JanetSlot) : JanetCompiler :=
  let cur := c.curScope
  c.setCurScope
    { cur with bindings := (n, { s with flags := s.flags ||| JANET_SLOT_NAMED }) :: cur.bindings }

def scopesLookup : List JanetScope → String → Option JanetSlot
  | [], _ => none
  | s :: rest, n =>
    match s.bindings.find? (fun b => b.1 == n) with
    | some b => some b.2
    | none => scopesLookup rest n

/-- Modelled from the spec: janetc_resolve looks a name up innermost scope
first; an absent name is an unbound-name compile error.  The external
resolver's closure-capture bookkeeping is out of scope. -/
def janetc_resolve (c : JanetCompiler) (n : String) : JanetSlot × JanetCompiler :=
  match scopesLookup c.scopes n with
  | some s => (s, c)
  | none => (janetc_cslot Janet.nil, janetc_cerror c "unknown symbol")

/-- Modelled from the spec: janetc_gettarget returns the caller-supplied
target slot when the options carry a usable local-register hint, otherwise a
fresh far register. -/
def janetc_gettarget (opts : JanetFopts) (c : JanetCompiler) : JanetSlot × JanetCompiler :=
  if opts.flags &&& JANET_FOPTS_HINT != 0 && (opts.hint.envindex < 0 : Bool) &&
      (opts.hint.index ≥ 0 : Bool) then
    (opts.hint, c)
  else janetc_farslot c

/-- Modelled from the spec: append one 32-bit instruction word and its
source-position entry; returns the word's position in the buffer. -/
def janetc_emit (c : JanetCompiler) (w : Nat) : Nat × JanetCompiler :=
  (c.buffer.length,
   { c with buffer := c.buffer ++ [w % TWO32], mapbuffer := c.mapbuffer ++ [0] })

def janetc_emitD (c : JanetCompiler) (w : Nat) : JanetCompiler := (janetc_emit c w).2

/-- Modelled from the spec: the external emitter resolves a slot to a
register operand, materializing a constant or a far (enclosing-frame) slot
into a temporary register with one load instruction; a plain local register
is used in place.  Returns the register, whether it is a temporary, and the
state. -/
def janetc_toreg (c : JanetCompiler) (s : JanetSlot) : Nat × Bool × JanetCompiler :=
  if s.flags &&& JANET_SLOT_CONSTANT != 0 || (s.envindex ≥ 0 : Bool) || (s.index < 0 : Bool) then
    let (r, c) := janetc_regalloc_temp c
    let c := janetc_emitD c (JOP_LOAD_CONSTANT ||| (r <<< 8))
    (r, true, c)
  else (s.index.toNat, false, c)

/-- Two's-complement encoding of a jump displacement shifted to its bit
offset inside a 32-bit instruction word (the C `(a - b) << shift` ORed into
a uint32_t buffer element). -/
def encodeDisp (d : Int) (shift : Nat) : Nat :=
  ((d * ((2 ^ shift : Nat) : Int)) % ((TWO32 : Nat) : Int)).toNat

/-- c->buffer[label] |= disp << shift: patch a jump displacement in place. -/
def janetc_patch (c : JanetCompiler) (label : Nat) (d : Int) (shift : Nat) : JanetCompiler :=
  { c with buffer := c.buffer.set label ((c.buffer.getD label 0) ||| encodeDisp d shift) }

/-- Modelled from the spec: janetc_emit_s (emit.c is not part of src). -/
def janetc_emit_s (c : JanetCompiler) (op : Nat) (s : JanetSlot) (wr : Bool) :
    Nat × JanetCompiler :=
  let (r, temp, c) := janetc_toreg c s
  let (l, c) := janetc_emit c (op ||| (r <<< 8))
  let c := if wr && temp then janetc_regalloc_free c r else c
  (l, c)

/-- Modelled from the spec: janetc_emit_si emits op with a register operand
and a signed immediate in the upper half-word (emit.c is not part of src). -/
def janetc_emit_si (c : JanetCompiler) (op : Nat) (s : JanetSlot) (i : Int) (wr : Bool) :
    Nat × JanetCompiler :=
  let (r, temp, c) := janetc_toreg c s
  let (l, c) := janetc_emit c (op ||| (r <<< 8) ||| encodeDisp i 16)
  let c := if wr && temp then janetc_regalloc_free c r else c
  (l, c)

/-- Modelled from the spec: janetc_emit_su emits op with a register operand
and an unsigned immediate at bit 16 (emit.c is not part of src). -/
def janetc_emit_su (c : JanetCompiler) (op : Nat) (s : JanetSlot) (u : Nat) (wr : Bool) :
    Nat × JanetCompiler :=
  let (r, temp, c) := janetc_toreg c s
  let (l, c) := janetc_emit c (op ||| (r <<< 8) ||| (u <<< 16))
  let c := if wr && temp then janetc_regalloc_free c r else c
  (l, c)

/-- Modelled from the spec: janetc_emit_ssu (emit.c is not part of src). -/
def janetc_emit_ssu (c : JanetCompiler) (op : Nat) (s1 s2 : JanetSlot) (u : Nat) (wr : Bool) :
    Nat × JanetCompiler :=
  let (r1, _, c) := janetc_toreg c s1
  let (r2, t2, c) := janetc_toreg c s2
  let (l, c) := janetc_emit c (op ||| (r1 <<< 8) ||| (r2 <<< 16) ||| (u <<< 24))
  let c := if wr && t2 then janetc_regalloc_free c r2 else c
  (l, c)

/-- Modelled from the spec: janetc_emit_sss (emit.c is not part of src). -/
def janetc_emit_sss (c : JanetCompiler) (op : Nat) (s1 s2 s3 : JanetSlot) (wr : Bool) :
    Nat × JanetCompiler :=
  let (r1, _, c) := janetc_toreg c s1
  let (r2, t2, c) := janetc_toreg c s2
  let (r3, t3, c) := janetc_toreg c s3
  let (l, c) := janetc_emit c (op ||| (r1 <<< 8) ||| (r2 <<< 16) ||| (r3 <<< 24))
  let c := if wr && t2 then janetc_regalloc_free c r2 else c
  let c := if wr && t3 then janetc_regalloc_free c r3 else c
  (l, c)

/-- Modelled from the spec: janetc_copy copies one slot into a target slot,
emitting one move instruction unless both refer to the same storage. -/
def janetc_copy (c : JanetCompiler) (dest src : JanetSlot) : JanetCompiler :=
  if dest.flags &&& JANET_SLOT_CONSTANT == 0 && src.flags &&& JANET_SLOT_CONSTANT == 0 &&
      (dest.index == src.index : Bool) && (dest.envindex == src.envindex : Bool) then c
  else
    let (rs, _, c) := janetc_toreg c src
    let (rd, _, c) := janetc_toreg c dest
    janetc_emitD c (JOP_MOVE ||| (rd <<< 8) ||| (rs <<< 16))

/-- Modelled from the spec: janetc_pop_funcdef (compile.c is not part of
src): finalize the current function scope into a FuncDef - the instructions
emitted since the scope opened become its bytecode and are removed from the
buffer, the scope's nested-definition list and register high-water are
recorded, and the scope is popped without any flag propagation. -/
def janetc_pop_funcdef (c : JanetCompiler) : JanetFuncDef × JanetCompiler :=
  let s := c.curScope
  (JanetFuncDef.mk 0 0 none (c.buffer.drop s.bytecodeStart) s.defs (Int.ofNat s.raNext),
   { c with buffer := c.buffer.take s.bytecodeStart,
            mapbuffer := c.mapbuffer.take s.bytecodeStart,
            scopes := c.scopes.tail })

/-- The recursive compile entry point of the generic expression dispatcher
(external collaborator, spec section 6), passed explicitly to each handler. -/
abbrev Value := JanetFopts → Janet → JanetCompiler → JanetSlot × JanetCompiler

/-- Modelled from the spec: janetc_throwaway (compile.c is not part of src):
throwaway compile of a dead expression - results and instructions are
discarded (the buffers are rolled back) but compile errors still surface. -/
def janetc_throwaway (value : Value) (opts : JanetFopts) (x : Janet) (c : JanetCompiler) :
    JanetCompiler :=
  let bufstart := c.buffer.length
  let c := janetc_scope c JANET_SCOPE_UNUSED "unusued"
  let (_, c) := value opts x c
  let c := janetc_popscope c
  { c with buffer := c.buffer.take bufstart, mapbuffer := c.mapbuffer.take bufstart }

/- ===================== specials.c translations ===================== -/

/-- janetc_quote: arity exactly 1, returns the argument as a constant slot. -/
def janetc_quote (_opts : JanetFopts) (argv : List Janet) (c : JanetCompiler) :
    JanetSlot × JanetCompiler :=
  if argv.length ≠ 1 then
    (janetc_cslot Janet.nil, janetc_cerror c "expected 1 argument")
  else
    (janetc_cslot (argv.headD Janet.nil), c)

/-- The leaf-binding callback type of the destructuring engine:
`(name, slot, attributes) -> did-name-consume-slot`. -/
abbrev Leaf := JanetCompiler → String → JanetSlot → Option JTable → Bool × JanetCompiler

mutual

/-- destructure (specials.c): walk a left-hand pattern against a right-hand
slot, invoking `leaf` at each symbol; returns whether `right` can be freed. -/
def destructure (value : Value) (c : JanetCompiler) (left : Janet) (right : JanetSlot)
    (leaf : Leaf) (attr : Option JTable) : Bool × JanetCompiler :=
  match left with
  | Janet.symbol s => leaf c s right attr
  | Janet.tuple xs => (true, destrIndexed value c xs 0 right leaf attr)
  | Janet.array xs => (true, destrIndexed value c xs 0 right leaf attr)
  | Janet.table kvs => (true, destrKeyed value c kvs right leaf attr)
  | Janet.struct kvs => (true, destrKeyed value c kvs right leaf attr)
  | _ => (true, janetc_cerror c "unexpected type in destructuring")
termination_by sizeOf left
decreasing_by all_goals (simp_wf <;> omega)

/-- The JANET_TUPLE/JANET_ARRAY loop of destructure: fetch element i into a
fresh far register (single-byte immediate below 0x100, constant key above),
recurse, free the temporary unless the recursion consumed it. -/
def destrIndexed (value : Value) (c : JanetCompiler) (xs : List Janet) (i : Nat)
    (right : JanetSlot) (leaf : Leaf) (attr : Option JTable) : JanetCompiler :=
  match xs with
  | [] => c
  | x :: rest =>
    let (nextright, c) := janetc_farslot c
    let c :=
      if i < 256 then (janetc_emit_ssu c JOP_GET_INDEX nextright right i true).2
      else
        let k := janetc_cslot (Janet.number (Int.ofNat i))
        (janetc_emit_sss c JOP_GET nextright right k true).2
    let (consumed, c) := destructure value c x nextright leaf attr
    let c := if consumed then janetc_freeslot c nextright else c
    destrIndexed value c rest (i + 1) right leaf attr
termination_by sizeOf xs
decreasing_by all_goals (simp_wf <;> omega)

/-- The JANET_TABLE/JANET_STRUCT loop of destructure: skip tombstoned
(nil-keyed) capacity slots, otherwise compile the key, emit a keyed get into
a fresh register and recurse. -/
def destrKeyed (value : Value) (c : JanetCompiler) (kvs : List (Janet × Janet))
    (right : JanetSlot) (leaf : Leaf) (attr : Option JTable) : JanetCompiler :=
  match kvs with
  | [] => c
  | (k, v) :: rest =>
    if janet_checktype_nil k then destrKeyed value c rest right leaf attr
    else
      let (nextright, c) := janetc_farslot c
      let (kslot, c) := value janetc_fopts_default k c
      let c := (janetc_emit_sss c JOP_GET nextright right kslot true).2
      let (consumed, c) := destructure value c v nextright leaf attr
      let c := if consumed then janetc_freeslot c nextright else c
      destrKeyed value c rest right leaf attr
termination_by sizeOf kvs
decreasing_by all_goals (simp_wf <;> omega)

end

/-- janetc_varset (the `:=` special): arity exactly 2, symbol target that
resolves to a MUTABLE slot; compiles the value with the target as type hint,
copies it into the target and returns the compiled value slot. -/
def janetc_varset (value : Value) (opts : JanetFopts) (argv : List Janet) (c : JanetCompiler) :
    JanetSlot × JanetCompiler :=
  if argv.length ≠ 2 then
    (janetc_cslot Janet.nil, janetc_cerror c "expected 2 arguments")
  else
    match argv.headD Janet.nil with
    | Janet.symbol s =>
      let (dest, c) := janetc_resolve c s
      if dest.flags &&& JANET_SLOT_MUTABLE == 0 then
        (janetc_cslot Janet.nil, janetc_cerror c "cannot set constant")
      else
        let subopts : JanetFopts := { flags := JANET_FOPTS_HINT, hint := dest }
        let (ret, c) := value subopts (argv.getD 1 Janet.nil) c
        let c := janetc_copy c dest ret
        (ret, c)
    | _ => (janetc_cslot Janet.nil, janetc_cerror c "expected symbol")

/-- handleattr: fold argv[1..argn-2] into an attribute table; a bare symbol
becomes a boolean flag, a string becomes the doc entry, anything else is a
metadata compile error (the loop continues past the error, as the C switch
only breaks). -/
def handleattr (c : JanetCompiler) (argv : List Janet) : JTable × JanetCompiler :=
  ((argv.drop 1).dropLast).foldl
    (fun acc attr =>
      match attr with
      | Janet.symbol _ => (acc.1.put attr (Janet.boolean true), acc.2)
      | Janet.string _ => (acc.1.put (Janet.symbol "doc") attr, acc.2)
      | _ => (acc.1, janetc_cerror acc.2 "could not add metadata to binding"))
    (JTable.mk [] none, c)

/-- dohead: shared head of `def`/`var` - at least 2 arguments, then compile
the last argument with the caller's TAIL and DROP flags stripped and the
caller's hint passed through.  (The C out-parameter `head` receives argv[0]
but is never read by either caller, so it is omitted.) -/
def dohead (value : Value) (c : JanetCompiler) (opts : JanetFopts) (argv : List Janet) :
    JanetSlot × JanetCompiler :=
  if argv.length < 2 then
    (janetc_cslot Janet.nil, janetc_cerror c "expected at least 2 arguments")
  else
    let subopts : JanetFopts :=
      { janetc_fopts_default with
        flags := opts.flags &&& NOT32 (JANET_FOPTS_TAIL ||| JANET_FOPTS_DROP),
        hint := opts.hint }
    value subopts (argv.getLastD Janet.nil) c

/-- namelocal: bind a symbol to a slot in a local scope, copying into a
fresh far register first unless the slot is an unnamed register that can be
named in place (the C test reads `ret.index > 0 && ret.envindex >= 0`);
returns whether the caller's slot was left unconsumed (`!isUnnamedRegister`). -/
def namelocal (c : JanetCompiler) (head : String) (flags : Nat) (ret : JanetSlot) :
    Bool × JanetCompiler :=
  let isUnnamedRegister :=
    ret.flags &&& JANET_SLOT_NAMED == 0 && (ret.index > 0 : Bool) && (ret.envindex ≥ 0 : Bool)
  if isUnnamedRegister then
    (false, janetc_nameslot c head { ret with flags := ret.flags ||| flags })
  else
    let (localslot, c) := janetc_farslot c
    let c := janetc_copy c localslot ret
    (true, janetc_nameslot c head { localslot with flags := localslot.flags ||| flags })

/-- varleaf: at TOP scope create an environment entry holding a one-element
mutable box (the env stores the wrapped reference table's contents; the
attribute table is its prototype) and store the value into the box; at local
scope bind a MUTABLE local name. -/
def varleaf : Leaf := fun c sym s attr =>
  if c.curScope.flags &&& JANET_SCOPE_TOP != 0 then
    let reftab := JTable.mk [] attr
    let refv := Janet.array [Janet.nil]
    let reftab := reftab.put (Janet.symbol ":ref") refv
    let c := { c with env := (Janet.symbol sym, Janet.table reftab.entries) :: c.env }
    let refslot := janetc_cslot refv
    (true, (janetc_emit_ssu c JOP_PUT_INDEX refslot s 0 false).2)
  else
    namelocal c sym JANET_SLOT_MUTABLE s

/-- janetc_var: compile the value via dohead, then destructure it with the
var leaf; the source slot is freed exactly when destructure reports it
consumable; always returns a constant nil slot. -/
def janetc_var (value : Value) (opts : JanetFopts) (argv : List Janet) (c : JanetCompiler) :
    JanetSlot × JanetCompiler :=
  let (ret, c) := dohead value c opts argv
  if c.status then (janetc_cslot Janet.nil, c)
  else
    let (attr, c) := handleattr c argv
    let (consumed, c) := destructure value c (argv.headD Janet.nil) ret varleaf (some attr)
    let c := if consumed then janetc_freeslot c ret else c
    (janetc_cslot Janet.nil, c)

/-- defleaf: at TOP scope create an environment entry table (attributes as
prototype) and emit a store of the value under :value; at local scope bind
an immutable local name. -/
def defleaf : Leaf := fun c sym s attr =>
  if c.curScope.flags &&& JANET_SCOPE_TOP != 0 then
    let tab := JTable.mk [] attr
    let valsym := janetc_cslot (Janet.symbol ":value")
    let tabslot := janetc_cslot (Janet.table tab.entries)
    let c := { c with env := (Janet.symbol sym, Janet.table tab.entries) :: c.env }
    (true, (janetc_emit_sss c JOP_PUT tabslot valsym s false).2)
  else
    namelocal c sym 0 s

/-- janetc_def: strips the caller's HINT flag, compiles the value via
dohead, destructures with the def leaf; always returns a constant nil slot. -/
def janetc_def (value : Value) (opts : JanetFopts) (argv : List Janet) (c : JanetCompiler) :
    JanetSlot × JanetCompiler :=
  let opts := { opts with flags := opts.flags &&& NOT32 JANET_FOPTS_HINT }
  let (ret, c) := dohead value c opts argv
  if c.status then (janetc_cslot Janet.nil, c)
  else
    let (attr, c) := handleattr c argv
    let (consumed, c) := destructure value c (argv.headD Janet.nil) ret defleaf (some attr)
    let c := if consumed then janetc_freeslot c ret else c
    (janetc_cslot Janet.nil, c)

/-- janetc_if: arity 2 or 3; constant conditions choose the branch
statically (the dead branch goes through throwaway compilation), dynamic
conditions emit a jump-if-not over the true body and, unless in tail
position, a jump over the false body, both patched once positions are
final. -/
def janetc_if (value : Value) (opts : JanetFopts) (argv : List Janet) (c : JanetCompiler) :
    JanetSlot × JanetCompiler :=
  let tail := opts.flags &&& JANET_FOPTS_TAIL != 0
  let drop := opts.flags &&& JANET_FOPTS_DROP != 0
  if argv.length < 2 || argv.length > 3 then
    (janetc_cslot Janet.nil, janetc_cerror c "expected 2 or 3 arguments to if")
  else
    let truebody := argv.getD 1 Janet.nil
    let falsebody := argv.getD 2 Janet.nil
    let condopts := janetc_fopts_default
    let bodyopts := opts
    let (target, c) :=
      if drop || tail then (janetc_cslot Janet.nil, c) else janetc_gettarget opts c
    let c := janetc_scope c 0 "if"
    let (cond, c) := value condopts (argv.headD Janet.nil) c
    if cond.flags &&& JANET_SLOT_CONSTANT != 0 then
      let (truebody, falsebody) :=
        if janet_truthy cond.constant then (truebody, falsebody) else (falsebody, truebody)
      let c := janetc_scope c 0 "if-body"
      let (target, c) := value bodyopts truebody c
      let c := janetc_popscope c
      let c := janetc_popscope c
      let c := janetc_throwaway value bodyopts falsebody c
      (target, c)
    else
      let (labeljr, c) := janetc_emit_si c JOP_JUMP_IF_NOT cond 0 false
      let c := janetc_scope c 0 "if-true"
      let (left, c) := value bodyopts truebody c
      let c := if !drop && !tail then janetc_copy c target left else c
      let c := janetc_popscope c
      let labeljd := c.buffer.length
      let c := if !tail then janetc_emitD c JOP_JUMP else c
      let labelr := c.buffer.length
      let c := janetc_scope c 0 "if-false"
      let (right, c) := value bodyopts falsebody c
      let c := if !drop && !tail then janetc_copy c target right else c
      let c := janetc_popscope c
      let c := janetc_popscope c
      let labeld := c.buffer.length
      let c := janetc_patch c labeljr ((labelr : Int) - (labeljr : Int)) 16
      let c := if !tail then janetc_patch c labeljd ((labeld : Int) - (labeljd : Int)) 8 else c
      let target :=
        if tail then { target with flags := target.flags ||| JANET_SLOT_RETURNED } else target
      (target, c)

/-- The body loop of janetc_do: all but the last sub-form compiled with
results dropped and freed, the last with the caller's original options. -/
def doBody (value : Value) (opts : JanetFopts) : List Janet → JanetCompiler →
    JanetSlot × JanetCompiler
  | [], c => (janetc_cslot Janet.nil, c)
  | [last], c => value opts last c
  | a :: rest, c =>
    let (s, c) := value { janetc_fopts_default with flags := JANET_FOPTS_DROP } a c
    let c := janetc_freeslot c s
    doBody value opts rest c

/-- janetc_do: one scope for the whole body, popped while keeping the final
slot as the result. -/
def janetc_do (value : Value) (opts : JanetFopts) (argv : List Janet) (c : JanetCompiler) :
    JanetSlot × JanetCompiler :=
  let c := janetc_scope c 0 "do"
  let (ret, c) := doBody value opts argv c
  let c := janetc_popscope_keepslot c ret
  (ret, c)

/-- janetc_addfuncdef: register a funcdef in the nearest enclosing scope
carrying the FUNCTION flag, walking parent links outward from the current
scope; returns the new definition's index in that scope's list.  (When no
function scope exists janet_assert aborts the process; that situation is
unreachable because the compiler's root scope is a function scope, and the
model returns the state unchanged.) -/
def janetc_addfuncdef (c : JanetCompiler) (fd : JanetFuncDef) : Nat × JanetCompiler :=
  match findFuncScopeIdx c with
  | some j =>
    let s := c.scopes.getD j default
    (s.defs.length, { c with scopes := c.scopes.set j { s with defs := s.defs ++ [fd] } })
  | none => (0, c)

/-- The body loop of janetc_while: each body form compiled with results
dropped and its slot freed. -/
def whileBody (value : Value) (subopts : JanetFopts) (body : List Janet) (c : JanetCompiler) :
    JanetCompiler :=
  body.foldl (fun c a =>
    let (s, c) := value subopts a c
    janetc_freeslot c s) c

/-- janetc_while.  A constant falsy condition elides the loop entirely; a
constant truthy condition is an infinite loop without a per-iteration
check.  If the loop's scope was marked CLOSURE during body compilation, the
buffers are rolled back to the loop top and the loop is recompiled as a
self-recursive function (the while-iife path); otherwise a back-jump is
emitted and both jump displacements are patched from final positions.  (The
C code mutates `subopts.flags` to DROP inside the body loop; since the form
has at least one body form the loop always runs, so the recompiled condition
also sees the DROP flag, which the translation makes explicit.) -/
def janetc_while (value : Value) (opts : JanetFopts) (argv : List Janet) (c : JanetCompiler) :
    JanetSlot × JanetCompiler :=
  let subopts := janetc_fopts_default
  if argv.length < 2 then
    (janetc_cslot Janet.nil, janetc_cerror c "expected at least 2 arguments")
  else
    let labelwt := c.buffer.length
    let c := janetc_scope c 0 "while"
    let (cond, c) := value subopts (argv.headD Janet.nil) c
    if cond.flags &&& JANET_SLOT_CONSTANT != 0 && !janet_truthy cond.constant then
      (janetc_cslot Janet.nil, janetc_popscope c)
    else
      let infinite := cond.flags &&& JANET_SLOT_CONSTANT != 0
      let (labelc, c) :=
        if infinite then (0, c) else janetc_emit_si c JOP_JUMP_IF_NOT cond 0 false
      let subopts := { subopts with flags := JANET_FOPTS_DROP }
      let c := whileBody value subopts (argv.drop 1) c
      if c.curScope.flags &&& JANET_SCOPE_CLOSURE != 0 then
        let c := scopeAddFlags c JANET_SCOPE_UNUSED
        let c := janetc_popscope c
        let c := { c with buffer := c.buffer.take labelwt, mapbuffer := c.mapbuffer.take labelwt }
        let c := janetc_scope c JANET_SCOPE_FUNCTION "while-iife"
        let (cond, c) := value subopts (argv.headD Janet.nil) c
        let c :=
          if cond.flags &&& JANET_SLOT_CONSTANT == 0 then
            janetc_emitD (janetc_emit_si c JOP_JUMP_IF cond 2 false).2 JOP_RETURN_NIL
          else c
        let c := whileBody value subopts (argv.drop 1) c
        let (tempself, c) := janetc_regalloc_temp c
        let c := janetc_emitD c (JOP_LOAD_SELF ||| (tempself <<< 8))
        let c := janetc_emitD c (JOP_TAILCALL ||| (tempself <<< 8))
        let (fd, c) := janetc_pop_funcdef c
        let fd := fd.withName "_while"
        let (defindex, c) := janetc_addfuncdef c fd
        let (cloreg, c) := janetc_regalloc_temp c
        let c := janetc_emitD c (JOP_CLOSURE ||| (cloreg <<< 8) ||| (defindex <<< 16))
        let c := janetc_emitD c (JOP_CALL ||| (cloreg <<< 8) ||| (cloreg <<< 16))
        let c := janetc_regalloc_free c cloreg
        let c := scopeAddFlags c JANET_SCOPE_CLOSURE
        (janetc_cslot Janet.nil, c)
      else
        let labeljt := c.buffer.length
        let c := janetc_emitD c JOP_JUMP
        let labeld := c.buffer.length
        let c :=
          if infinite then c
          else janetc_patch c labelc ((labeld : Int) - (labelc : Int)) 16
        let c := janetc_patch c labeljt ((labelwt : Int) - (labeljt : Int)) 8
        let c := janetc_popscope c
        (janetc_cslot Janet.nil, c)

/-- The parameter loop of janetc_fn, processed left to right carrying the
position, the running arity and the vararg flag; a misplaced variadic
marker stops the loop with the error message of the C `goto error`. -/
def fnParams (value : Value) (pc : Nat) : List Janet → Nat → Int → Bool → JanetCompiler →
    Option String × Int × Bool × JanetCompiler
  | [], _, arity, varargs, c => (none, arity, varargs, c)
  | p :: rest, i, arity, varargs, c =>
    match p with
    | Janet.symbol s =>
      if s = "&" then
        if (i : Int) ≠ (pc : Int) - 2 then
          (some "variable argument symbol in unexpected location", arity, varargs, c)
        else fnParams value pc rest (i + 1) (arity - 1) true c
      else
        let (slot, c) := janetc_farslot c
        let c := janetc_nameslot c s slot
        fnParams value pc rest (i + 1) (arity + 1) varargs c
    | _ =>
      let (slot, c) := janetc_farslot c
      let c := (destructure value c p slot defleaf none).2
      fnParams value pc rest (i + 1) (arity + 1) varargs c

/-- The self-reference block of janetc_fn: a dedicated named register
initialized with a load-current-closure instruction before the body. -/
def fnSelfRef (c : JanetCompiler) (head : Janet) : JanetCompiler :=
  let (slot, c) := janetc_farslot c
  let slot := { slot with flags := JANET_SLOT_NAMED ||| JANET_FUNCTION }
  let c := (janetc_emit_s c JOP_LOAD_SELF slot true).2
  janetc_nameslot c (symName head) slot

/-- The body loop of janetc_fn: all but the last form with results dropped,
the last in tail position, stopping (true = failed) as soon as the compile
status shows an error; an empty body emits a direct return-nil. -/
def fnBody (value : Value) : List Janet → JanetCompiler → Bool × JanetCompiler
  | [], c => (false, janetc_emitD c JOP_RETURN_NIL)
  | a :: rest, c =>
    let flags := if rest.isEmpty then JANET_FOPTS_TAIL else JANET_FOPTS_DROP
    let (_, c) := value { janetc_fopts_default with flags := flags } a c
    if c.status then (true, c)
    else
      match rest with
      | [] => (false, c)
      | _ => fnBody value rest c

/-- The funcdef finalization of janetc_fn: arity, the vararg flag or (for a
tuple parameter list without varargs) the fixed-arity flag, the
self-reference name, and the slot-count floor of arity + vararg.  (The C
code raises `def->slotcount` through the stored pointer after registration;
the functional model applies the update before registering, which yields the
same stored definition.) -/
def fnBuildDef (fd : JanetFuncDef) (paramv : Janet) (selfref : Bool) (head : Janet)
    (arity : Int) (varargs : Bool) : JanetFuncDef :=
  let fd := fd.withArity arity
  let fd :=
    if varargs then fd.orFlags JANET_FUNCDEF_FLAG_VARARG
    else if janet_checktype_tuple paramv then fd.orFlags JANET_FUNCDEF_FLAG_FIXARITY
    else fd
  let fd := if selfref then fd.withName (symName head) else fd
  let va : Int := if varargs then 1 else 0
  if arity + va > fd.slotcount then fd.withSlotcount (arity + va) else fd

/-- The tail of janetc_fn after a successful body compile: pop the function
scope into a funcdef, finalize it, register it via janetc_addfuncdef, and
emit the closure-instantiation instruction into the caller's target slot. -/
def fnFinish (opts : JanetFopts) (paramv : Janet) (selfref : Bool) (head : Janet)
    (arity : Int) (varargs : Bool) (c : JanetCompiler) : JanetSlot × JanetCompiler :=
  let (fd, c) := janetc_pop_funcdef c
  let fd := fnBuildDef fd paramv selfref head arity varargs
  let (defindex, c) := janetc_addfuncdef c fd
  let (ret, c) := janetc_gettarget opts c
  let c := (janetc_emit_su c JOP_CLOSURE ret defindex true).2
  (ret, c)

/-- The `goto error` path of janetc_fn: record the message, unwind the
function scope, return a constant nil slot. -/
def fnError (c : JanetCompiler) (m : String) : JanetSlot × JanetCompiler :=
  (janetc_cslot Janet.nil, janetc_popscope (janetc_cerror c m))

/-- janetc_fn: mark the enclosing scope CLOSURE, open a function scope, an
optional leading symbol names the function for self-reference, process the
parameter sequence, compile the body, finalize and register the definition
and emit the closure instruction. -/
def janetc_fn (value : Value) (opts : JanetFopts) (argv : List Janet) (c : JanetCompiler) :
    JanetSlot × JanetCompiler :=
  let c := scopeAddFlags c JANET_SCOPE_CLOSURE
  let c := janetc_scope c JANET_SCOPE_FUNCTION "function"
  if argv.length < 2 then fnError c "expected at least 2 arguments to function literal"
  else
    let head := argv.headD Janet.nil
    let selfref := janet_checktype_symbol head
    let parami := if selfref then 1 else 0
    if parami ≥ argv.length then fnError c "expected function parameters"
    else
      let paramv := argv.getD parami Janet.nil
      match janet_indexed_view paramv with
      | none => fnError c "expected function parameters"
      | some params =>
        match fnParams value params.length params 0 0 false c with
        | (some m, _, _, c) => fnError c m
        | (none, arity, varargs, c) =>
          let c := if selfref then fnSelfRef c head else c
          let (failed, c) := fnBody value (argv.drop (parami + 1)) c
          if failed then (janetc_cslot Janet.nil, janetc_popscope c)
          else fnFinish opts paramv selfref head arity varargs c

/-- The registry of specials (kept in lexicographic order in the C table;
janet_strbinsearch over the sorted table is modelled as association lookup). -/
def janetc_specials :
    List (String × (Value → JanetFopts → List Janet → JanetCompiler →
      JanetSlot × JanetCompiler)) :=
  [(":=", janetc_varset),
   ("def", janetc_def),
   ("do", janetc_do),
   ("fn", janetc_fn),
   ("if", janetc_if),
   ("quote", fun _ => janetc_quote),
   ("var", janetc_var),
   ("while", janetc_while)]

/-- janetc_special: find a special's handler by name. -/
def janetc_special (name : String) :
    Option (Value → JanetFopts → List Janet → JanetCompiler → JanetSlot × JanetCompiler) :=
  (janetc_specials.find? (fun p => p.1 == name)).map Prod.snd

/-- The compiler's initial state: one root scope that is both the top-level
scope and a function scope (as compile.c's janetc_init opens it). -/
def initComp : JanetCompiler :=
  { buffer := [], mapbuffer := [],
    scopes := [{ flags := JANET_SCOPE_FUNCTION ||| JANET_SCOPE_TOP, name := "root",
                 bindings := [], defs := [], raNext := 0, raFreed := [], bytecodeStart := 0 }],
    env := [], status := false, errMsg := none }

/- ===================== helper lemmas ===================== -/

theorem janetc_popscope_buffer (c : JanetCompiler) : (janetc_popscope c).buffer = c.buffer := by
  unfold janetc_popscope
  rcases c with ⟨buf, mbuf, scopes, env, st, em⟩
  match scopes with
  | [] => rfl
  | [s] => rfl
  | s :: p :: r2 => rfl

theorem janetc_popscope_mapbuffer (c : JanetCompiler) :
    (janetc_popscope c).mapbuffer = c.mapbuffer := by
  unfold janetc_popscope
  rcases c with ⟨buf, mbuf, scopes, env, st, em⟩
  match scopes with
  | [] => rfl
  | [s] => rfl
  | s :: p :: r2 => rfl

theorem janetc_popscope_status (c : JanetCompiler) : (janetc_popscope c).status = c.status := by
  unfold janetc_popscope
  rcases c with ⟨buf, mbuf, scopes, env, st, em⟩
  match scopes with
  | [] => rfl
  | [s] => rfl
  | s :: p :: r2 => rfl

theorem janetc_popscope_errMsg (c : JanetCompiler) : (janetc_popscope c).errMsg = c.errMsg := by
  unfold janetc_popscope
  rcases c with ⟨buf, mbuf, scopes, env, st, em⟩
  match scopes with
  | [] => rfl
  | [s] => rfl
  | s :: p :: r2 => rfl

/- ===================== claim theorems ===================== -/

/-- C1: a `while` form whose condition compiles to a compile-time constant
falsy slot discards the condition scope and returns a constant nil slot:
the final state is exactly the popped post-condition state (whose buffer
and status the pop leaves untouched, so no body instruction is ever
emitted), and the handler's result does not depend on the body forms at
all, so compile errors inside the body are neither detected nor reported. -/
theorem while_constant_falsy_elides_body
    (value : Value) (opts : JanetFopts) (a0 : Janet) (body1 body2 : List Janet)
    (c : JanetCompiler) (cond : JanetSlot) (c1 : JanetCompiler)
    (hb1 : body1 ≠ []) (hb2 : body2 ≠ [])
    (hcond : value janetc_fopts_default a0 (janetc_scope c 0 "while") = (cond, c1))
    (hconst : cond.flags &&& JANET_SLOT_CONSTANT ≠ 0)
    (hfalsy : janet_truthy cond.constant = false) :
    janetc_while value opts (a0 :: body1) c = (janetc_cslot Janet.nil, janetc_popscope c1)
    ∧ (janetc_popscope c1).buffer = c1.buffer
    ∧ (janetc_popscope c1).status = c1.status
    ∧ janetc_while value opts (a0 :: body1) c = janetc_while value opts (a0 :: body2) c := by
  have hc : (cond.flags &&& JANET_SLOT_CONSTANT != 0) = true := by
    simpa [bne_iff_ne] using hconst
  have key : ∀ (body : List Janet), body ≠ [] →
      janetc_while value opts (a0 :: body) c
        = (janetc_cslot Janet.nil, janetc_popscope c1) := by
    intro body hb
    have hlen : ¬ ((a0 :: body).length < 2) := by
      cases body with
      | nil => exact absurd rfl hb
      | cons x xs => simp [List.length_cons]
    unfold janetc_while
    rw [if_neg hlen]
    simp only [List.headD_cons, hcond, hc, hfalsy, Bool.not_false, Bool.and_true]
    simp
  exact ⟨key body1 hb1, janetc_popscope_buffer c1, janetc_popscope_status c1,
    (key body1 hb1).trans (key body2 hb2).symm⟩

/-- A sub-compiler that always yields the constant false slot, used to
witness the constant-falsy `while` elision on a concrete input. -/
def constFalseValue : Value := fun _ _ c => (janetc_cslot (Janet.boolean false), c)

/-- C1 witness: the theorem applied at a concrete falsy-constant loop. -/
theorem while_constant_falsy_elides_body_witness :
    (([Janet.nil] : List Janet) ≠ []
      ∧ (janetc_cslot (Janet.boolean false)).flags &&& JANET_SLOT_CONSTANT ≠ 0
      ∧ janet_truthy (janetc_cslot (Janet.boolean false)).constant = false)
    ∧ (janetc_while constFalseValue janetc_fopts_default [Janet.nil, Janet.nil] initComp
        = (janetc_cslot Janet.nil, janetc_popscope (janetc_scope initComp 0 "while"))
      ∧ (janetc_popscope (janetc_scope initComp 0 "while")).buffer
          = (janetc_scope initComp 0 "while").buffer
      ∧ (janetc_popscope (janetc_scope initComp 0 "while")).status
          = (janetc_scope initComp 0 "while").status
      ∧ janetc_while constFalseValue janetc_fopts_default [Janet.nil, Janet.nil] initComp
          = janetc_while constFalseValue janetc_fopts_default [Janet.nil, Janet.number 0]
              initComp) :=
  ⟨⟨List.cons_ne_nil _ _, by decide, rfl⟩,
   while_constant_falsy_elides_body constFalseValue janetc_fopts_default Janet.nil
     [Janet.nil] [Janet.number 0] initComp (janetc_cslot (Janet.boolean false))
     (janetc_scope initComp 0 "while") (List.cons_ne_nil _ _) (List.cons_ne_nil _ _)
     rfl (by decide) rfl⟩

/-- C2: an `if` form whose condition compiles to a compile-time constant
slot keeps only the branch selected by the constant's truthiness (nil and
boolean false are the only falsy values; the bodies are swapped when the
constant is falsy); the unselected branch is compiled in throwaway mode:
its instructions are rolled back from the buffer (the final buffer is the
live branch's buffer), while a compile error raised inside it still
survives into the final status. -/
theorem if_constant_condition_selects_branch
    (value : Value) (opts : JanetFopts) (a0 tb fb : Janet) (c : JanetCompiler)
    (target0 : JanetSlot) (c0 : JanetCompiler)
    (cond : JanetSlot) (c1 : JanetCompiler) (tslot : JanetSlot) (c2 : JanetCompiler)
    (c3 : JanetCompiler) (deadslot : JanetSlot) (c4 : JanetCompiler)
    (htarget : (if (opts.flags &&& JANET_FOPTS_DROP != 0) || (opts.flags &&& JANET_FOPTS_TAIL != 0)
        then (janetc_cslot Janet.nil, c) else janetc_gettarget opts c) = (target0, c0))
    (hcond : value janetc_fopts_default a0 (janetc_scope c0 0 "if") = (cond, c1))
    (hconst : cond.flags &&& JANET_SLOT_CONSTANT ≠ 0)
    (hlive : value opts (if janet_truthy cond.constant then tb else fb)
        (janetc_scope c1 0 "if-body") = (tslot, c2))
    (hc3 : janetc_popscope (janetc_popscope c2) = c3)
    (hdead : value opts (if janet_truthy cond.constant then fb else tb)
        (janetc_scope c3 JANET_SCOPE_UNUSED "unusued") = (deadslot, c4)) :
    janetc_if value opts [a0, tb, fb] c
      = (tslot,
         { janetc_popscope c4 with
             buffer := (janetc_popscope c4).buffer.take c3.buffer.length,
             mapbuffer := (janetc_popscope c4).mapbuffer.take c3.buffer.length })
    ∧ (janetc_if value opts [a0, tb, fb] c).2.status = c4.status
    ∧ c3.buffer = c2.buffer
    ∧ (c4.buffer.take c3.buffer.length = c3.buffer →
        (janetc_if value opts [a0, tb, fb] c).2.buffer = c3.buffer) := by
  have hc : (cond.flags &&& JANET_SLOT_CONSTANT != 0) = true := by
    simpa [bne_iff_ne] using hconst
  have main : janetc_if value opts [a0, tb, fb] c
      = (tslot,
         { janetc_popscope c4 with
             buffer := (janetc_popscope c4).buffer.take c3.buffer.length,
             mapbuffer := (janetc_popscope c4).mapbuffer.take c3.buffer.length }) := by
    unfold janetc_if
    rw [if_neg (by simp)]
    simp only [List.headD_cons, List.getD_cons_succ, List.getD_cons_zero]
    rw [htarget]
    simp only []
    rw [hcond]
    simp only [hc, if_true]
    cases htr : janet_truthy cond.constant with
    | true =>
      simp only [htr] at hlive hdead
      simp at hlive hdead
      simp [janetc_throwaway, hlive, hc3, hdead]
    | false =>
      simp only [htr] at hlive hdead
      simp at hlive hdead
      simp [janetc_throwaway, hlive, hc3, hdead]
  refine ⟨main, ?_, ?_, ?_⟩
  · rw [main]
    exact janetc_popscope_status c4
  · rw [← hc3, janetc_popscope_buffer, janetc_popscope_buffer]
  · intro hext
    rw [main]
    simp only [janetc_popscope_buffer, hext]

/-- A sub-compiler for the C2 witness: a constant-true condition, a live
branch that emits one instruction, and a dead branch that raises an error. -/
def ifProbeValue : Value := fun _ x c =>
  match x with
  | Janet.boolean b => (janetc_cslot (Janet.boolean b), c)
  | Janet.number _ => (janetc_cslot Janet.nil, janetc_emitD c JOP_RETURN_NIL)
  | _ => (janetc_cslot Janet.nil, janetc_cerror c "dead branch error")

/-- C2 witness: the theorem applied at a concrete constant-true `if` whose
dead branch raises an error; the final buffer keeps exactly the live
branch's instruction while the dead branch's error reaches the caller. -/
theorem if_constant_condition_selects_branch_witness :
    ((janetc_cslot (Janet.boolean true)).flags &&& JANET_SLOT_CONSTANT ≠ 0
      ∧ ((janetc_scope (janetc_scope initComp 0 "if") 0 "if-body").buffer.take
          ((janetc_popscope (janetc_popscope
            (janetc_emitD (janetc_scope (janetc_scope initComp 0 "if") 0 "if-body")
              JOP_RETURN_NIL))).buffer.length)
          = (janetc_popscope (janetc_popscope
              (janetc_emitD (janetc_scope (janetc_scope initComp 0 "if") 0 "if-body")
                JOP_RETURN_NIL))).buffer) = False)
    ∧ (janetc_if ifProbeValue { flags := JANET_FOPTS_DROP, hint := janetc_cslot Janet.nil }
        [Janet.boolean true, Janet.number 1, Janet.string "dead"] initComp).2.status
        = (janetc_cerror (janetc_scope (janetc_popscope (janetc_popscope
            (janetc_emitD (janetc_scope (janetc_scope initComp 0 "if") 0 "if-body")
              JOP_RETURN_NIL))) JANET_SCOPE_UNUSED "unusued") "dead branch error").status := by
  constructor
  · constructor
    · decide
    · decide
  · exact (if_constant_condition_selects_branch ifProbeValue
      { flags := JANET_FOPTS_DROP, hint := janetc_cslot Janet.nil }
      (Janet.boolean true) (Janet.number 1) (Janet.string "dead") initComp
      (janetc_cslot Janet.nil) initComp
      (janetc_cslot (Janet.boolean true)) (janetc_scope initComp 0 "if")
      (janetc_cslot Janet.nil)
      (janetc_emitD (janetc_scope (janetc_scope initComp 0 "if") 0 "if-body") JOP_RETURN_NIL)
      (janetc_popscope (janetc_popscope
        (janetc_emitD (janetc_scope (janetc_scope initComp 0 "if") 0 "if-body") JOP_RETURN_NIL)))
      (janetc_cslot Janet.nil)
      (janetc_cerror (janetc_scope (janetc_popscope (janetc_popscope
        (janetc_emitD (janetc_scope (janetc_scope initComp 0 "if") 0 "if-body")
          JOP_RETURN_NIL))) JANET_SCOPE_UNUSED "unusued") "dead branch error")
      rfl rfl (by decide) rfl rfl rfl).2.1

/-- A probing sub-compiler: records the option flag word it was handed in
the instruction buffer and raises a compile error, so the calling handler
stops right after the recorded call. -/
def probeValue : Value := fun o _ c =>
  (janetc_cslot Janet.nil, { c with buffer := c.buffer ++ [o.flags], status := true })

/-- C3 counterexample: with a caller whose options carry the type-hint
flag, `def` hands its value expression a flag word with the hint bit
cleared (the claim says `def` compiles with a type hint), while `var`
hands a flag word with the hint bit still set (the claim says `var`
compiles without one). -/
theorem def_var_hint_flag_counterexample :
    ((janetc_def probeValue { flags := JANET_FOPTS_HINT, hint := janetc_cslot Janet.nil }
        [Janet.symbol "x", Janet.nil] initComp).2.buffer.getD 0 1) &&& JANET_FOPTS_HINT = 0
    ∧ ((janetc_var probeValue { flags := JANET_FOPTS_HINT, hint := janetc_cslot Janet.nil }
        [Janet.symbol "x", Janet.nil] initComp).2.buffer.getD 0 0) &&& JANET_FOPTS_HINT ≠ 0 := by
  constructor
  · decide
  · decide

/-- C3 (amended): for every `def` form the final value expression is
compiled with the caller's tail and drop flags stripped and the type-hint
flag cleared as well (no type hint), while for every `var` form it is
compiled with the tail and drop flags stripped and the caller's type-hint
flag left intact.  The recording sub-compiler exposes the exact flag word
each handler passes to the value compile. -/
theorem def_var_value_option_flags (opts : JanetFopts) (argv : List Janet)
    (c : JanetCompiler) (h : 2 ≤ argv.length) :
    (janetc_def probeValue opts argv c).2.buffer
      = c.buffer ++ [(opts.flags &&& NOT32 JANET_FOPTS_HINT)
          &&& NOT32 (JANET_FOPTS_TAIL ||| JANET_FOPTS_DROP)]
    ∧ (janetc_var probeValue opts argv c).2.buffer
      = c.buffer ++ [opts.flags &&& NOT32 (JANET_FOPTS_TAIL ||| JANET_FOPTS_DROP)]
    ∧ ((opts.flags &&& NOT32 JANET_FOPTS_HINT)
        &&& NOT32 (JANET_FOPTS_TAIL ||| JANET_FOPTS_DROP)) &&& JANET_FOPTS_HINT = 0
    ∧ ((opts.flags &&& NOT32 JANET_FOPTS_HINT)
        &&& NOT32 (JANET_FOPTS_TAIL ||| JANET_FOPTS_DROP))
        &&& (JANET_FOPTS_TAIL ||| JANET_FOPTS_DROP) = 0
    ∧ (opts.flags &&& NOT32 (JANET_FOPTS_TAIL ||| JANET_FOPTS_DROP))
        &&& (JANET_FOPTS_TAIL ||| JANET_FOPTS_DROP) = 0
    ∧ (opts.flags &&& NOT32 (JANET_FOPTS_TAIL ||| JANET_FOPTS_DROP)) &&& JANET_FOPTS_HINT
        = opts.flags &&& JANET_FOPTS_HINT := by
  have hlen : ¬ (argv.length < 2) := by omega
  refine ⟨?_, ?_, ?_, ?_, ?_, ?_⟩
  · simp [janetc_def, dohead, probeValue, hlen]
  · simp [janetc_var, dohead, probeValue, hlen]
  · rw [Nat.land_assoc, Nat.land_assoc]
    have : NOT32 JANET_FOPTS_HINT
        &&& (NOT32 (JANET_FOPTS_TAIL ||| JANET_FOPTS_DROP) &&& JANET_FOPTS_HINT) = 0 := by
      decide
    simp [this]
  · rw [Nat.land_assoc, Nat.land_assoc]
    have : NOT32 JANET_FOPTS_HINT
        &&& (NOT32 (JANET_FOPTS_TAIL ||| JANET_FOPTS_DROP)
          &&& (JANET_FOPTS_TAIL ||| JANET_FOPTS_DROP)) = 0 := by
      decide
    simp [this]
  · rw [Nat.land_assoc]
    have : NOT32 (JANET_FOPTS_TAIL ||| JANET_FOPTS_DROP)
        &&& (JANET_FOPTS_TAIL ||| JANET_FOPTS_DROP) = 0 := by
      decide
    simp [this]
  · rw [Nat.land_assoc]
    have : NOT32 (JANET_FOPTS_TAIL ||| JANET_FOPTS_DROP) &&& JANET_FOPTS_HINT
        = JANET_FOPTS_HINT := by
      decide
    rw [this]

/-- C3 witness: the amended theorem applied at a concrete caller carrying
the hint, tail and drop flags at once. -/
theorem def_var_value_option_flags_witness :
    2 ≤ ([Janet.symbol "x", Janet.nil] : List Janet).length
    ∧ ((janetc_def probeValue
          { flags := JANET_FOPTS_HINT ||| (JANET_FOPTS_TAIL ||| JANET_FOPTS_DROP),
            hint := janetc_cslot Janet.nil }
          [Janet.symbol "x", Janet.nil] initComp).2.buffer
        = initComp.buffer
          ++ [((JANET_FOPTS_HINT ||| (JANET_FOPTS_TAIL ||| JANET_FOPTS_DROP))
                &&& NOT32 JANET_FOPTS_HINT)
              &&& NOT32 (JANET_FOPTS_TAIL ||| JANET_FOPTS_DROP)]) :=
  ⟨by decide,
   (def_var_value_option_flags
      { flags := JANET_FOPTS_HINT ||| (JANET_FOPTS_TAIL ||| JANET_FOPTS_DROP),
        hint := janetc_cslot Janet.nil }
      [Janet.symbol "x", Janet.nil] initComp (by decide)).1⟩

/-- A sub-compiler that returns a constant nil slot and leaves the state
unchanged (a literal nil expression under the external dispatcher). -/
def pureValue : Value := fun _ _ c => (janetc_cslot Janet.nil, c)

/-- C4: the destructuring engine's return value reports whether the
top-level source slot was consumed - always true for composite patterns
(tuple, array, table, struct), and exactly the leaf callback's own report
for a bare symbol - and both `var` and `def` free the compiled source slot
exactly when the report is true. -/
theorem destructure_consumption_report (value : Value) :
    (∀ c right leaf attr xs, (destructure value c (Janet.tuple xs) right leaf attr).1 = true)
    ∧ (∀ c right leaf attr xs, (destructure value c (Janet.array xs) right leaf attr).1 = true)
    ∧ (∀ c right leaf attr kvs, (destructure value c (Janet.table kvs) right leaf attr).1 = true)
    ∧ (∀ c right leaf attr kvs, (destructure value c (Janet.struct kvs) right leaf attr).1 = true)
    ∧ (∀ c right leaf attr s, destructure value c (Janet.symbol s) right leaf attr
        = leaf c s right attr)
    ∧ (∀ opts argv c ret c1 attr2 c2 b c3,
        dohead value c opts argv = (ret, c1) →
        c1.status = false →
        handleattr c1 argv = (attr2, c2) →
        destructure value c2 (argv.headD Janet.nil) ret varleaf (some attr2) = (b, c3) →
        janetc_var value opts argv c
          = (janetc_cslot Janet.nil, if b then janetc_freeslot c3 ret else c3))
    ∧ (∀ opts argv c ret c1 attr2 c2 b c3,
        dohead value c
            { opts with flags := JanetFopts.flags opts &&& NOT32 JANET_FOPTS_HINT } argv
          = (ret, c1) →
        c1.status = false →
        handleattr c1 argv = (attr2, c2) →
        destructure value c2 (argv.headD Janet.nil) ret defleaf (some attr2) = (b, c3) →
        janetc_def value opts argv c
          = (janetc_cslot Janet.nil, if b then janetc_freeslot c3 ret else c3)) := by
  refine ⟨?_, ?_, ?_, ?_, ?_, ?_, ?_⟩
  · intro c right leaf attr xs
    simp [destructure]
  · intro c right leaf attr xs
    simp [destructure]
  · intro c right leaf attr kvs
    simp [destructure]
  · intro c right leaf attr kvs
    simp [destructure]
  · intro c right leaf attr s
    simp [destructure]
  · intro opts argv c ret c1 attr2 c2 b c3 h1 h2 h3 h4
    unfold janetc_var
    rw [h1]
    simp only [h2, Bool.false_eq_true, if_false, h3, h4]
  · intro opts argv c ret c1 attr2 c2 b c3 h1 h2 h3 h4
    unfold janetc_def
    simp only []
    rw [h1]
    simp only [h2, Bool.false_eq_true, if_false, h3, h4]

/-- C4 witness: the theorem applied at a concrete composite pattern and at
a concrete `var` form binding a bare symbol. -/
theorem destructure_consumption_report_witness :
    (destructure pureValue initComp (Janet.tuple []) (janetc_cslot Janet.nil) varleaf none).1
      = true
    ∧ destructure pureValue initComp (Janet.symbol "a") (janetc_cslot Janet.nil) varleaf none
        = varleaf initComp "a" (janetc_cslot Janet.nil) none
    ∧ janetc_var pureValue janetc_fopts_default [Janet.symbol "x", Janet.nil] initComp
        = (janetc_cslot Janet.nil,
           if (varleaf initComp "x" (janetc_cslot Janet.nil)
                (some (JTable.mk [] none))).1 then
             janetc_freeslot
               (varleaf initComp "x" (janetc_cslot Janet.nil) (some (JTable.mk [] none))).2
               (janetc_cslot Janet.nil)
           else (varleaf initComp "x" (janetc_cslot Janet.nil) (some (JTable.mk [] none))).2) :=
  ⟨(destructure_consumption_report pureValue).1 initComp (janetc_cslot Janet.nil) varleaf none [],
   (destructure_consumption_report pureValue).2.2.2.2.1 initComp (janetc_cslot Janet.nil)
     varleaf none "a",
   (destructure_consumption_report pureValue).2.2.2.2.2.1 janetc_fopts_default
     [Janet.symbol "x", Janet.nil] initComp (janetc_cslot Janet.nil) initComp
     (JTable.mk [] none) initComp
     (varleaf initComp "x" (janetc_cslot Janet.nil) (some (JTable.mk [] none))).1
     (varleaf initComp "x" (janetc_cslot Janet.nil) (some (JTable.mk [] none))).2
     rfl rfl rfl
     (((destructure_consumption_report pureValue).2.2.2.2.1 initComp (janetc_cslot Janet.nil)
        varleaf (some (JTable.mk [] none)) "x").trans rfl)⟩

theorem destrKeyed_filter (value : Value) (right : JanetSlot) (leaf : Leaf)
    (attr : Option JTable) (kvs : List (Janet × Janet)) :
    ∀ c, destrKeyed value c kvs right leaf attr
      = destrKeyed value c (kvs.filter (fun kv => !janet_checktype_nil kv.1)) right leaf attr := by
  induction kvs with
  | nil => intro c; rfl
  | cons kv rest ih =>
    intro c
    obtain ⟨k, v⟩ := kv
    cases hk : janet_checktype_nil k with
    | true =>
      rw [List.filter_cons]
      simp only [hk, Bool.not_true, Bool.false_eq_true, if_false]
      rw [destrKeyed, hk]
      simp only [if_true]
      exact ih c
    | false =>
      rw [List.filter_cons]
      simp only [hk, Bool.not_false, if_true]
      rw [destrKeyed, destrKeyed, hk]
      simp only [Bool.false_eq_true, if_false]
      exact ih _

/-- C9: destructuring a mapping-like pattern (table or struct) skips every
slot of the pattern's backing storage whose key is nil: the walk is
unchanged by removing the nil-keyed entries beforehand, and a nil-keyed
entry at the head of the storage is passed over with no register
allocation, no keyed-get emission and no recursion. -/
theorem destructure_map_skips_nil_keys (value : Value) :
    (∀ c kvs right leaf attr,
        destructure value c (Janet.table kvs) right leaf attr
          = destructure value c
              (Janet.table (kvs.filter (fun kv => !janet_checktype_nil kv.1))) right leaf attr)
    ∧ (∀ c kvs right leaf attr,
        destructure value c (Janet.struct kvs) right leaf attr
          = destructure value c
              (Janet.struct (kvs.filter (fun kv => !janet_checktype_nil kv.1))) right leaf attr)
    ∧ (∀ c rest right leaf attr v,
        destrKeyed value c ((Janet.nil, v) :: rest) right leaf attr
          = destrKeyed value c rest right leaf attr) := by
  refine ⟨?_, ?_, ?_⟩
  · intro c kvs right leaf attr
    rw [destructure, destructure, destrKeyed_filter]
  · intro c kvs right leaf attr
    rw [destructure, destructure, destrKeyed_filter]
  · intro c rest right leaf attr v
    rw [destrKeyed]
    simp [janet_checktype_nil]

/-- Shared glue: when the parameter loop of `fn` stops with an error
message, the handler records it and unwinds the just-opened function scope,
returning a constant nil slot. -/
theorem janetc_fn_params_glue (value : Value) (opts : JanetFopts) (argv : List Janet)
    (c : JanetCompiler) (params : List Janet) (m : String) (ar : Int) (va : Bool)
    (c1 : JanetCompiler)
    (hlen : 2 ≤ argv.length)
    (hview : janet_indexed_view
        (argv.getD (if janet_checktype_symbol (argv.headD Janet.nil) then 1 else 0) Janet.nil)
      = some params)
    (hrun : fnParams value params.length params 0 0 false
        (janetc_scope (scopeAddFlags c JANET_SCOPE_CLOSURE) JANET_SCOPE_FUNCTION "function")
      = (some m, ar, va, c1)) :
    janetc_fn value opts argv c
      = (janetc_cslot Janet.nil, janetc_popscope (janetc_cerror c1 m)) := by
  unfold janetc_fn
  simp only []
  rw [if_neg (by omega)]
  cases hs : janet_checktype_symbol (argv.headD Janet.nil) with
  | true =>
    simp only [hs, if_true] at hview ⊢
    rw [if_neg (by omega)]
    rw [hview]
    simp [hrun, fnError]
  | false =>
    simp only [hs, Bool.false_eq_true, if_false] at hview ⊢
    rw [if_neg (by omega)]
    rw [hview]
    simp [hrun, fnError]

/-- C10: whenever a special-form handler itself detects an invalid form and
raises a compile error - wrong argument count for `quote`, `:=`, `if`,
`while`, `def`, `var` or `fn`; a non-symbol or non-mutable `:=` target;
missing or malformed `fn` parameters; or an error (such as the misplaced
vararg marker) from the `fn` parameter loop - the handler returns a
constant nil slot together with the error-carrying state. -/
theorem error_paths_return_nil_slot :
    (∀ (opts : JanetFopts) argv c, argv.length ≠ 1 →
        janetc_quote opts argv c
          = (janetc_cslot Janet.nil, janetc_cerror c "expected 1 argument"))
    ∧ (∀ (value : Value) opts argv c, argv.length ≠ 2 →
        janetc_varset value opts argv c
          = (janetc_cslot Janet.nil, janetc_cerror c "expected 2 arguments"))
    ∧ (∀ (value : Value) opts argv c, argv.length = 2 →
        janet_checktype_symbol (argv.headD Janet.nil) = false →
        janetc_varset value opts argv c
          = (janetc_cslot Janet.nil, janetc_cerror c "expected symbol"))
    ∧ (∀ (value : Value) opts argv c s dest, argv.length = 2 →
        argv.headD Janet.nil = Janet.symbol s →
        scopesLookup c.scopes s = some dest →
        dest.flags &&& JANET_SLOT_MUTABLE = 0 →
        janetc_varset value opts argv c
          = (janetc_cslot Janet.nil, janetc_cerror c "cannot set constant"))
    ∧ (∀ (value : Value) opts argv c, argv.length < 2 ∨ 3 < argv.length →
        janetc_if value opts argv c
          = (janetc_cslot Janet.nil, janetc_cerror c "expected 2 or 3 arguments to if"))
    ∧ (∀ (value : Value) opts argv c, argv.length < 2 →
        janetc_while value opts argv c
          = (janetc_cslot Janet.nil, janetc_cerror c "expected at least 2 arguments"))
    ∧ (∀ (value : Value) opts argv c, argv.length < 2 →
        janetc_def value opts argv c
          = (janetc_cslot Janet.nil, janetc_cerror c "expected at least 2 arguments"))
    ∧ (∀ (value : Value) opts argv c, argv.length < 2 →
        janetc_var value opts argv c
          = (janetc_cslot Janet.nil, janetc_cerror c "expected at least 2 arguments"))
    ∧ (∀ (value : Value) opts argv c, argv.length < 2 →
        janetc_fn value opts argv c
          = (janetc_cslot Janet.nil,
             janetc_popscope (janetc_cerror
               (janetc_scope (scopeAddFlags c JANET_SCOPE_CLOSURE) JANET_SCOPE_FUNCTION
                 "function")
               "expected at least 2 arguments to function literal")))
    ∧ (∀ (value : Value) opts argv c, 2 ≤ argv.length →
        janet_indexed_view
            (argv.getD (if janet_checktype_symbol (argv.headD Janet.nil) then 1 else 0)
              Janet.nil) = none →
        janetc_fn value opts argv c
          = (janetc_cslot Janet.nil,
             janetc_popscope (janetc_cerror
               (janetc_scope (scopeAddFlags c JANET_SCOPE_CLOSURE) JANET_SCOPE_FUNCTION
                 "function")
               "expected function parameters")))
    ∧ (∀ (value : Value) opts argv c params m ar va c1, 2 ≤ argv.length →
        janet_indexed_view
            (argv.getD (if janet_checktype_symbol (argv.headD Janet.nil) then 1 else 0)
              Janet.nil) = some params →
        fnParams value params.length params 0 0 false
            (janetc_scope (scopeAddFlags c JANET_SCOPE_CLOSURE) JANET_SCOPE_FUNCTION
              "function")
          = (some m, ar, va, c1) →
        janetc_fn value opts argv c
          = (janetc_cslot Janet.nil, janetc_popscope (janetc_cerror c1 m))) := by
  refine ⟨?_, ?_, ?_, ?_, ?_, ?_, ?_, ?_, ?_, ?_, ?_⟩
  · intro opts argv c h
    unfold janetc_quote
    rw [if_pos h]
  · intro value opts argv c h
    unfold janetc_varset
    rw [if_pos h]
  · intro value opts argv c hlen hns
    unfold janetc_varset
    rw [if_neg (by omega)]
    cases hj : argv.headD Janet.nil <;>
      simp_all [janet_checktype_symbol]
  · intro value opts argv c s dest hlen hhead hlook hmut
    unfold janetc_varset janetc_resolve
    rw [if_neg (by omega), hhead]
    simp [hlook, hmut]
  · intro value opts argv c h
    unfold janetc_if
    simp only []
    have hb : (decide (argv.length < 2) || decide (argv.length > 3)) = true := by
      rcases h with h | h <;> simp [h]
    rw [if_pos hb]
  · intro value opts argv c h
    unfold janetc_while
    rw [if_pos (by omega)]
  · intro value opts argv c h
    have hd : dohead value c { opts with flags := opts.flags &&& NOT32 JANET_FOPTS_HINT } argv
        = (janetc_cslot Janet.nil, janetc_cerror c "expected at least 2 arguments") := by
      unfold dohead
      rw [if_pos (by omega)]
    unfold janetc_def
    simp only []
    rw [hd]
    simp [janetc_cerror]
  · intro value opts argv c h
    have hd : dohead value c opts argv
        = (janetc_cslot Janet.nil, janetc_cerror c "expected at least 2 arguments") := by
      unfold dohead
      rw [if_pos (by omega)]
    unfold janetc_var
    rw [hd]
    simp [janetc_cerror]
  · intro value opts argv c h
    unfold janetc_fn
    rw [if_pos (by omega)]
    rfl
  · intro value opts argv c hlen hview
    unfold janetc_fn
    simp only []
    rw [if_neg (by omega)]
    cases hs : janet_checktype_symbol (argv.headD Janet.nil) with
    | true =>
      simp only [hs, if_true] at hview ⊢
      rw [if_neg (by omega), hview]
      simp [fnError]
    | false =>
      simp only [hs, Bool.false_eq_true, if_false] at hview ⊢
      rw [if_neg (by omega), hview]
      simp [fnError]
  · intro value opts argv c params m ar va c1 hlen hview hrun
    exact janetc_fn_params_glue value opts argv c params m ar va c1 hlen hview hrun

/-- A state whose root scope binds `k` to a constant (hence non-MUTABLE)
slot, for exercising the cannot-set-constant path of `:=`. -/
def constBoundComp : JanetCompiler :=
  { buffer := [], mapbuffer := [],
    scopes := [{ flags := JANET_SCOPE_FUNCTION ||| JANET_SCOPE_TOP, name := "root",
                 bindings := [("k", janetc_cslot Janet.nil)], defs := [], raNext := 0,
                 raFreed := [], bytecodeStart := 0 }],
    env := [], status := false, errMsg := none }

/-- C10 witness: every error-path conjunct applied at a concrete invalid
form. -/
theorem error_paths_return_nil_slot_witness :
    janetc_quote janetc_fopts_default [] initComp
      = (janetc_cslot Janet.nil, janetc_cerror initComp "expected 1 argument")
    ∧ janetc_varset pureValue janetc_fopts_default [] initComp
      = (janetc_cslot Janet.nil, janetc_cerror initComp "expected 2 arguments")
    ∧ janetc_varset pureValue janetc_fopts_default [Janet.nil, Janet.nil] initComp
      = (janetc_cslot Janet.nil, janetc_cerror initComp "expected symbol")
    ∧ janetc_varset pureValue janetc_fopts_default [Janet.symbol "k", Janet.nil] constBoundComp
      = (janetc_cslot Janet.nil, janetc_cerror constBoundComp "cannot set constant")
    ∧ janetc_if pureValue janetc_fopts_default [] initComp
      = (janetc_cslot Janet.nil, janetc_cerror initComp "expected 2 or 3 arguments to if")
    ∧ janetc_while pureValue janetc_fopts_default [] initComp
      = (janetc_cslot Janet.nil, janetc_cerror initComp "expected at least 2 arguments")
    ∧ janetc_def pureValue janetc_fopts_default [] initComp
      = (janetc_cslot Janet.nil, janetc_cerror initComp "expected at least 2 arguments")
    ∧ janetc_var pureValue janetc_fopts_default [] initComp
      = (janetc_cslot Janet.nil, janetc_cerror initComp "expected at least 2 arguments")
    ∧ janetc_fn pureValue janetc_fopts_default [] initComp
      = (janetc_cslot Janet.nil,
         janetc_popscope (janetc_cerror
           (janetc_scope (scopeAddFlags initComp JANET_SCOPE_CLOSURE) JANET_SCOPE_FUNCTION
             "function")
           "expected at least 2 arguments to function literal"))
    ∧ janetc_fn pureValue janetc_fopts_default [Janet.nil, Janet.nil] initComp
      = (janetc_cslot Janet.nil,
         janetc_popscope (janetc_cerror
           (janetc_scope (scopeAddFlags initComp JANET_SCOPE_CLOSURE) JANET_SCOPE_FUNCTION
             "function")
           "expected function parameters"))
    ∧ janetc_fn pureValue janetc_fopts_default
        [Janet.tuple [Janet.symbol "&", Janet.symbol "a", Janet.symbol "b"], Janet.nil] initComp
      = (janetc_cslot Janet.nil,
         janetc_popscope (janetc_cerror
           (janetc_scope (scopeAddFlags initComp JANET_SCOPE_CLOSURE) JANET_SCOPE_FUNCTION
             "function")
           "variable argument symbol in unexpected location")) :=
  ⟨error_paths_return_nil_slot.1 janetc_fopts_default [] initComp (by decide),
   error_paths_return_nil_slot.2.1 pureValue janetc_fopts_default [] initComp (by decide),
   error_paths_return_nil_slot.2.2.1 pureValue janetc_fopts_default [Janet.nil, Janet.nil]
     initComp (by decide) rfl,
   error_paths_return_nil_slot.2.2.2.1 pureValue janetc_fopts_default
     [Janet.symbol "k", Janet.nil] constBoundComp "k" (janetc_cslot Janet.nil) (by decide)
     rfl rfl (by decide),
   error_paths_return_nil_slot.2.2.2.2.1 pureValue janetc_fopts_default [] initComp
     (Or.inl (by decide)),
   error_paths_return_nil_slot.2.2.2.2.2.1 pureValue janetc_fopts_default [] initComp
     (by decide),
   error_paths_return_nil_slot.2.2.2.2.2.2.1 pureValue janetc_fopts_default [] initComp
     (by decide),
   error_paths_return_nil_slot.2.2.2.2.2.2.2.1 pureValue janetc_fopts_default [] initComp
     (by decide),
   error_paths_return_nil_slot.2.2.2.2.2.2.2.2.1 pureValue janetc_fopts_default [] initComp
     (by decide),
   error_paths_return_nil_slot.2.2.2.2.2.2.2.2.2.1 pureValue janetc_fopts_default
     [Janet.nil, Janet.nil] initComp (by decide) rfl,
   error_paths_return_nil_slot.2.2.2.2.2.2.2.2.2.2 pureValue janetc_fopts_default
     [Janet.tuple [Janet.symbol "&", Janet.symbol "a", Janet.symbol "b"], Janet.nil] initComp
     [Janet.symbol "&", Janet.symbol "a", Janet.symbol "b"]
     "variable argument symbol in unexpected location" 0 false
     (janetc_scope (scopeAddFlags initComp JANET_SCOPE_CLOSURE) JANET_SCOPE_FUNCTION
       "function")
     (by decide) rfl rfl⟩

/-- C6: in a `fn` parameter list, the variadic marker `&` is accepted only
at the second-to-last position: anywhere else the parameter loop stops with
the misplaced-vararg message and the whole handler fails with that compile
error, returning a constant nil slot; when accepted, the marker sets the
vararg accumulator, decrements the running arity count and leaves the
compiler state untouched (it binds no register of its own), and the
finalized definition's flag word gets the VARARG bit ORed in. -/
theorem fn_vararg_marker_position :
    (∀ (value : Value) (pc : Nat) (rest : List Janet) (i : Nat) (arity : Int) (va : Bool) c,
        (i : Int) ≠ (pc : Int) - 2 →
        fnParams value pc (Janet.symbol "&" :: rest) i arity va c
          = (some "variable argument symbol in unexpected location", arity, va, c))
    ∧ (∀ (value : Value) (pc : Nat) (rest : List Janet) (i : Nat) (arity : Int) (va : Bool) c,
        (i : Int) = (pc : Int) - 2 →
        fnParams value pc (Janet.symbol "&" :: rest) i arity va c
          = fnParams value pc rest (i + 1) (arity - 1) true c)
    ∧ (∀ (value : Value) opts argv c params ar va c1, 2 ≤ argv.length →
        janet_indexed_view
            (argv.getD (if janet_checktype_symbol (argv.headD Janet.nil) then 1 else 0)
              Janet.nil) = some params →
        fnParams value params.length params 0 0 false
            (janetc_scope (scopeAddFlags c JANET_SCOPE_CLOSURE) JANET_SCOPE_FUNCTION
              "function")
          = (some "variable argument symbol in unexpected location", ar, va, c1) →
        janetc_fn value opts argv c
          = (janetc_cslot Janet.nil,
             janetc_popscope (janetc_cerror c1
               "variable argument symbol in unexpected location")))
    ∧ (∀ fd paramv selfref head arity,
        (fnBuildDef fd paramv selfref head arity true).fdflags
          = fd.fdflags ||| JANET_FUNCDEF_FLAG_VARARG)
    ∧ (∀ c, (janetc_pop_funcdef c).1.fdflags = 0) := by
  refine ⟨?_, ?_, ?_, ?_, ?_⟩
  · intro value pc rest i arity va c h
    simp [fnParams, h]
  · intro value pc rest i arity va c h
    simp [fnParams, h]
  · intro value opts argv c params ar va c1 hlen hview hrun
    exact janetc_fn_params_glue value opts argv c params
      "variable argument symbol in unexpected location" ar va c1 hlen hview hrun
  · intro fd paramv selfref head arity
    obtain ⟨f, a, n, b, d, s⟩ := fd
    unfold fnBuildDef
    simp only [if_true]
    cases selfref
    · simp only [Bool.false_eq_true, if_false]
      split <;> rfl
    · simp only [eq_self_iff_true, if_true]
      split <;> rfl
  · intro c
    rfl

/-- C6 witness: the marker rejected at the head of a three-element list,
accepted at the second-to-last position, the full handler failing on a
misplaced marker, and the VARARG bit on a concrete finalized definition. -/
theorem fn_vararg_marker_position_witness :
    fnParams pureValue 3 [Janet.symbol "&", Janet.symbol "a", Janet.symbol "b"] 0 5 false
        initComp
      = (some "variable argument symbol in unexpected location", 5, false, initComp)
    ∧ fnParams pureValue 3 [Janet.symbol "&", Janet.symbol "r"] 1 5 false initComp
      = fnParams pureValue 3 [Janet.symbol "r"] 2 4 true initComp
    ∧ janetc_fn pureValue janetc_fopts_default
        [Janet.tuple [Janet.symbol "&", Janet.symbol "a", Janet.symbol "b"], Janet.boolean true]
        initComp
      = (janetc_cslot Janet.nil,
         janetc_popscope (janetc_cerror
           (janetc_scope (scopeAddFlags initComp JANET_SCOPE_CLOSURE) JANET_SCOPE_FUNCTION
             "function")
           "variable argument symbol in unexpected location"))
    ∧ (fnBuildDef (JanetFuncDef.mk 0 0 none [] [] 0) (Janet.tuple []) false Janet.nil 1
        true).fdflags = 0 ||| JANET_FUNCDEF_FLAG_VARARG :=
  ⟨fn_vararg_marker_position.1 pureValue 3 [Janet.symbol "a", Janet.symbol "b"] 0 5 false
     initComp (by decide),
   fn_vararg_marker_position.2.1 pureValue 3 [Janet.symbol "r"] 1 5 false initComp (by decide),
   fn_vararg_marker_position.2.2.1 pureValue janetc_fopts_default
     [Janet.tuple [Janet.symbol "&", Janet.symbol "a", Janet.symbol "b"], Janet.boolean true]
     initComp [Janet.symbol "&", Janet.symbol "a", Janet.symbol "b"] 0 false
     (janetc_scope (scopeAddFlags initComp JANET_SCOPE_CLOSURE) JANET_SCOPE_FUNCTION
       "function")
     (by decide) rfl rfl,
   fn_vararg_marker_position.2.2.2.1 (JanetFuncDef.mk 0 0 none [] [] 0) (Janet.tuple [])
     false Janet.nil 1⟩

/-- The walk of janetc_addfuncdef finds the nearest scope with the FUNCTION
flag: the found index is in range, carries the flag, and every scope nearer
than it does not. -/
theorem findFuncScope_spec (l : List JanetScope) :
    ∀ (j : Nat), findFuncScope l = some j →
      j < l.length ∧ (l.getD j default).flags &&& JANET_SCOPE_FUNCTION ≠ 0
      ∧ ∀ k, k < j → (l.getD k default).flags &&& JANET_SCOPE_FUNCTION = 0 := by
  induction l with
  | nil => intro j h; simp [findFuncScope] at h
  | cons s rest ih =>
    intro j h
    unfold findFuncScope at h
    by_cases hs : (s.flags &&& JANET_SCOPE_FUNCTION != 0) = true
    · rw [if_pos hs] at h
      have hj : j = 0 := by simpa using h.symm
      subst hj
      refine ⟨by simp, ?_, fun k hk => absurd hk (by omega)⟩
      simpa [List.getD_eq_getElem?_getD, bne_iff_ne] using hs
    · rw [if_neg hs] at h
      cases hr : findFuncScope rest with
      | none => rw [hr] at h; simp at h
      | some j2 =>
        rw [hr] at h
        simp only [Option.map_some'] at h
        have hj : j = j2 + 1 := by simpa using h.symm
        subst hj
        obtain ⟨h1, h2, h3⟩ := ih j2 hr
        refine ⟨by simp; omega, ?_, ?_⟩
        · simpa [List.getD_eq_getElem?_getD, List.getElem?_cons_succ] using h2
        · intro k hk
          cases k with
          | zero =>
            simp only [List.getD_eq_getElem?_getD, List.getElem?_cons_zero]
            simpa [bne_iff_ne] using hs
          | succ k2 =>
            have := h3 k2 (by omega)
            simpa [List.getD_eq_getElem?_getD, List.getElem?_cons_succ] using this

/-- janetc_addfuncdef, characterized at the found function scope: it pushes
the definition onto that scope's list and returns the old list length as
the definition's index. -/
theorem janetc_addfuncdef_spec (c : JanetCompiler) (fd : JanetFuncDef) (j : Nat)
    (h : findFuncScopeIdx c = some j) :
    janetc_addfuncdef c fd
      = ((c.scopes.getD j default).defs.length,
         { c with scopes := c.scopes.set j ({ c.scopes.getD j default with
             defs := (c.scopes.getD j default).defs ++ [fd] }) }) := by
  unfold janetc_addfuncdef
  rw [h]

theorem janetc_addfuncdef_registers (c : JanetCompiler) (fd : JanetFuncDef) (j : Nat)
    (h : findFuncScopeIdx c = some j) :
    (((janetc_addfuncdef c fd).2).scopes.getD j default).defs
      = (c.scopes.getD j default).defs ++ [fd] := by
  rw [janetc_addfuncdef_spec c fd j h]
  have hlt : j < c.scopes.length := (findFuncScope_spec c.scopes j h).1
  simp [List.getD_eq_getElem?_getD, List.getElem?_set_eq_of_lt _ hlt]

/-- Shared glue: a `fn` form whose parameter loop and body compile both
succeed reaches the finalization tail with the loop's arity and vararg
results. -/
theorem janetc_fn_success_glue (value : Value) (opts : JanetFopts) (argv : List Janet)
    (c : JanetCompiler) (params : List Janet) (arity : Int) (va : Bool)
    (c2 c3 : JanetCompiler)
    (hlen : 2 ≤ argv.length)
    (hview : janet_indexed_view
        (argv.getD (if janet_checktype_symbol (argv.headD Janet.nil) then 1 else 0) Janet.nil)
      = some params)
    (hparams : fnParams value params.length params 0 0 false
        (janetc_scope (scopeAddFlags c JANET_SCOPE_CLOSURE) JANET_SCOPE_FUNCTION "function")
      = (none, arity, va, c2))
    (hbody : fnBody value
        (argv.drop ((if janet_checktype_symbol (argv.headD Janet.nil) then 1 else 0) + 1))
        (if janet_checktype_symbol (argv.headD Janet.nil) then
          fnSelfRef c2 (argv.headD Janet.nil) else c2)
      = (false, c3)) :
    janetc_fn value opts argv c
      = fnFinish opts
          (argv.getD (if janet_checktype_symbol (argv.headD Janet.nil) then 1 else 0) Janet.nil)
          (janet_checktype_symbol (argv.headD Janet.nil)) (argv.headD Janet.nil) arity va c3 := by
  unfold janetc_fn
  simp only []
  rw [if_neg (by omega)]
  cases hs : janet_checktype_symbol (argv.headD Janet.nil) with
  | true =>
    simp only [hs, if_true] at hview hbody ⊢
    rw [if_neg (by omega)]
    rw [hview]
    simp only [hparams]
    simp only [hbody]
    simp
  | false =>
    simp only [hs, Bool.false_eq_true, if_false] at hview hbody ⊢
    rw [if_neg (by omega)]
    rw [hview]
    simp only [hparams]
    simp only [hbody]
    simp

/-- C7 counterexample: a successfully compiled `fn` whose parameter list is
written with tuple syntax but contains the variadic marker at the accepted
position gets the VARARG flag and not the FIXARITY flag, so the fixed-arity
flag is not set "exactly when the parameter list was written with tuple
syntax". -/
theorem fn_fixarity_counterexample :
    janet_checktype_tuple
        (Janet.tuple [Janet.symbol "x", Janet.symbol "&", Janet.symbol "r"]) = true
    ∧ (janetc_fn pureValue janetc_fopts_default
        [Janet.tuple [Janet.symbol "x", Janet.symbol "&", Janet.symbol "r"], Janet.nil]
        initComp).2.status = false
    ∧ (((janetc_fn pureValue janetc_fopts_default
        [Janet.tuple [Janet.symbol "x", Janet.symbol "&", Janet.symbol "r"], Janet.nil]
        initComp).2.scopes.headD default).defs.getLastD default).fdflags
        &&& JANET_FUNCDEF_FLAG_FIXARITY = 0
    ∧ (((janetc_fn pureValue janetc_fopts_default
        [Janet.tuple [Janet.symbol "x", Janet.symbol "&", Janet.symbol "r"], Janet.nil]
        initComp).2.scopes.headD default).defs.getLastD default).fdflags
        &&& JANET_FUNCDEF_FLAG_VARARG ≠ 0 := by
  refine ⟨rfl, by decide, by decide, by decide⟩

/-- C7 (amended): for every successfully compiled `fn`, the finalized
definition's flag word is VARARG when a variadic marker was accepted, else
FIXARITY exactly when the parameter list was written with tuple syntax:
the fixed-arity flag is set iff the parameters used tuple syntax AND no
vararg marker was present.  The success glue ties an arbitrary `fn` form to
the finalization tail, which builds the registered definition with
fnBuildDef from the freshly popped (flag-zero) definition. -/
theorem fn_fixarity_flag
    (value : Value) (opts : JanetFopts) (argv : List Janet)
    (c : JanetCompiler) (params : List Janet) (arity : Int) (va : Bool)
    (c2 c3 : JanetCompiler)
    (hlen : 2 ≤ argv.length)
    (hview : janet_indexed_view
        (argv.getD (if janet_checktype_symbol (argv.headD Janet.nil) then 1 else 0) Janet.nil)
      = some params)
    (hparams : fnParams value params.length params 0 0 false
        (janetc_scope (scopeAddFlags c JANET_SCOPE_CLOSURE) JANET_SCOPE_FUNCTION "function")
      = (none, arity, va, c2))
    (hbody : fnBody value
        (argv.drop ((if janet_checktype_symbol (argv.headD Janet.nil) then 1 else 0) + 1))
        (if janet_checktype_symbol (argv.headD Janet.nil) then
          fnSelfRef c2 (argv.headD Janet.nil) else c2)
      = (false, c3)) :
    janetc_fn value opts argv c
      = fnFinish opts
          (argv.getD (if janet_checktype_symbol (argv.headD Janet.nil) then 1 else 0) Janet.nil)
          (janet_checktype_symbol (argv.headD Janet.nil)) (argv.headD Janet.nil) arity va c3
    ∧ (∀ (fd : JanetFuncDef) (paramv head : Janet) (selfref : Bool) (ar : Int),
        (fnBuildDef fd paramv selfref head ar va).fdflags
          = (if va then fd.fdflags ||| JANET_FUNCDEF_FLAG_VARARG
             else if janet_checktype_tuple paramv then
               fd.fdflags ||| JANET_FUNCDEF_FLAG_FIXARITY
             else fd.fdflags))
    ∧ (∀ (fd : JanetFuncDef) (paramv head : Janet) (selfref : Bool) (ar : Int),
        fd.fdflags = 0 →
        ((fnBuildDef fd paramv selfref head ar va).fdflags
            &&& JANET_FUNCDEF_FLAG_FIXARITY ≠ 0
          ↔ (va = false ∧ janet_checktype_tuple paramv = true)))
    ∧ (janetc_pop_funcdef c3).1.fdflags = 0
    ∧ (∀ (paramv head : Janet) (selfref : Bool) (cx : JanetCompiler),
        fnFinish opts paramv selfref head arity va cx
          = ((janetc_gettarget opts (janetc_addfuncdef (janetc_pop_funcdef cx).2
                (fnBuildDef (janetc_pop_funcdef cx).1 paramv selfref head arity va)).2).1,
             (janetc_emit_su
               (janetc_gettarget opts (janetc_addfuncdef (janetc_pop_funcdef cx).2
                  (fnBuildDef (janetc_pop_funcdef cx).1 paramv selfref head arity va)).2).2
               JOP_CLOSURE
               (janetc_gettarget opts (janetc_addfuncdef (janetc_pop_funcdef cx).2
                  (fnBuildDef (janetc_pop_funcdef cx).1 paramv selfref head arity va)).2).1
               (janetc_addfuncdef (janetc_pop_funcdef cx).2
                  (fnBuildDef (janetc_pop_funcdef cx).1 paramv selfref head arity va)).1
               true).2)) := by
  refine ⟨janetc_fn_success_glue value opts argv c params arity va c2 c3 hlen hview hparams
    hbody, ?_, ?_, rfl, ?_⟩
  · intro fd paramv head selfref ar
    obtain ⟨f, a, n, b, d, s⟩ := fd
    cases va
    · simp only [fnBuildDef, Bool.false_eq_true, if_false]
      cases ht : janet_checktype_tuple paramv
      · simp only [Bool.false_eq_true, if_false]
        cases selfref
        · simp only [Bool.false_eq_true, if_false]
          split <;> rfl
        · simp only [if_true]
          split <;> rfl
      · simp only [if_true]
        cases selfref
        · simp only [Bool.false_eq_true, if_false]
          split <;> rfl
        · simp only [if_true]
          split <;> rfl
    · simp only [fnBuildDef, if_true]
      cases selfref
      · simp only [Bool.false_eq_true, if_false]
        split <;> rfl
      · simp only [if_true]
        split <;> rfl
  · intro fd paramv head selfref ar h0
    obtain ⟨f, a, n, b, d, s⟩ := fd
    have hf : f = 0 := h0
    subst hf
    cases va
    · cases ht : janet_checktype_tuple paramv
      · have heq : (fnBuildDef (JanetFuncDef.mk 0 a n b d s) paramv selfref head ar
            false).fdflags = 0 := by
          simp only [fnBuildDef, Bool.false_eq_true, if_false, ht]
          cases selfref
          · simp only [Bool.false_eq_true, if_false]
            split <;> rfl
          · simp only [if_true]
            split <;> rfl
        rw [heq]
        simp [ht]
      · have heq : (fnBuildDef (JanetFuncDef.mk 0 a n b d s) paramv selfref head ar
            false).fdflags = JANET_FUNCDEF_FLAG_FIXARITY := by
          simp only [fnBuildDef, Bool.false_eq_true, if_false, ht, if_true]
          cases selfref
          · simp only [Bool.false_eq_true, if_false]
            split <;> rfl
          · simp only [if_true]
            split <;> rfl
        rw [heq]
        simp [ht]
        decide
    · have heq : (fnBuildDef (JanetFuncDef.mk 0 a n b d s) paramv selfref head ar
          true).fdflags = JANET_FUNCDEF_FLAG_VARARG := by
        simp only [fnBuildDef, if_true]
        cases selfref
        · simp only [Bool.false_eq_true, if_false]
          split <;> rfl
        · simp only [if_true]
          split <;> rfl
      rw [heq]
      simp
      decide
  · intro paramv head selfref cx
    rfl

/-- The freshly opened function scope of a `fn` compiled from the initial
state, and the concrete states after its parameter and body compiles, used
by concrete instantiations. -/
def fnScopeW : JanetCompiler :=
  janetc_scope (scopeAddFlags initComp JANET_SCOPE_CLOSURE) JANET_SCOPE_FUNCTION "function"

def c2W : JanetCompiler :=
  (fnParams pureValue 1 [Janet.symbol "x"] 0 0 false fnScopeW).2.2.2

def c3W : JanetCompiler := (fnBody pureValue [Janet.nil] c2W).2

/-- C7 witness: the amended theorem applied at a concrete one-parameter
tuple-syntax `fn` without a vararg marker. -/
theorem fn_fixarity_flag_witness :
    2 ≤ ([Janet.tuple [Janet.symbol "x"], Janet.nil] : List Janet).length
    ∧ janetc_fn pureValue janetc_fopts_default [Janet.tuple [Janet.symbol "x"], Janet.nil]
        initComp
      = fnFinish janetc_fopts_default (Janet.tuple [Janet.symbol "x"]) false
          (Janet.tuple [Janet.symbol "x"]) 1 false c3W :=
  ⟨by decide,
   (fn_fixarity_flag pureValue janetc_fopts_default [Janet.tuple [Janet.symbol "x"], Janet.nil]
      initComp [Janet.symbol "x"] 1 false c2W c3W (by decide) rfl rfl rfl).1⟩

/-- C8: every finalized function definition - produced by `fn`'s
finalization or by `while`'s closure rewrite - is registered in the nearest
enclosing scope carrying the FUNCTION flag, found by walking parent links
outward from the just-popped function scope (the walk's result is in
range, carries the flag, and no nearer scope does), appended at the end of
that scope's definition list, and the closure-instantiation instruction
emitted at the call site carries that definition's index in its bits 16
and up. -/
theorem funcdef_registration
    (value : Value) (opts : JanetFopts) :
    (∀ (c : JanetCompiler) j, findFuncScopeIdx c = some j →
        j < c.scopes.length
        ∧ (c.scopes.getD j default).flags &&& JANET_SCOPE_FUNCTION ≠ 0
        ∧ ∀ k, k < j → (c.scopes.getD k default).flags &&& JANET_SCOPE_FUNCTION = 0)
    ∧ (∀ (c : JanetCompiler) fd j, findFuncScopeIdx c = some j →
        janetc_addfuncdef c fd
          = ((c.scopes.getD j default).defs.length,
             { c with scopes := c.scopes.set j ({ c.scopes.getD j default with
                 defs := (c.scopes.getD j default).defs ++ [fd] }) }))
    ∧ (∀ (argv : List Janet) (c : JanetCompiler) (params : List Janet) (arity : Int)
          (va : Bool) (c2 c3 : JanetCompiler) (idx : Nat) (c5 : JanetCompiler)
          (ret : JanetSlot) (c6 : JanetCompiler) (j : Nat),
        2 ≤ argv.length →
        janet_indexed_view
            (argv.getD (if janet_checktype_symbol (argv.headD Janet.nil) then 1 else 0)
              Janet.nil) = some params →
        fnParams value params.length params 0 0 false
            (janetc_scope (scopeAddFlags c JANET_SCOPE_CLOSURE) JANET_SCOPE_FUNCTION
              "function")
          = (none, arity, va, c2) →
        fnBody value
            (argv.drop ((if janet_checktype_symbol (argv.headD Janet.nil) then 1 else 0) + 1))
            (if janet_checktype_symbol (argv.headD Janet.nil) then
              fnSelfRef c2 (argv.headD Janet.nil) else c2)
          = (false, c3) →
        findFuncScopeIdx (janetc_pop_funcdef c3).2 = some j →
        janetc_addfuncdef (janetc_pop_funcdef c3).2
            (fnBuildDef (janetc_pop_funcdef c3).1
              (argv.getD (if janet_checktype_symbol (argv.headD Janet.nil) then 1 else 0)
                Janet.nil)
              (janet_checktype_symbol (argv.headD Janet.nil)) (argv.headD Janet.nil) arity va)
          = (idx, c5) →
        janetc_gettarget opts c5 = (ret, c6) →
        ret.flags &&& JANET_SLOT_CONSTANT = 0 →
        ret.envindex < 0 →
        0 ≤ ret.index →
        janetc_fn value opts argv c
            = (ret, (janetc_emit c6
                (JOP_CLOSURE ||| (ret.index.toNat <<< 8) ||| (idx <<< 16))).2)
          ∧ idx = (((janetc_pop_funcdef c3).2).scopes.getD j default).defs.length
          ∧ (c5.scopes.getD j default).defs
              = (((janetc_pop_funcdef c3).2).scopes.getD j default).defs
                ++ [fnBuildDef (janetc_pop_funcdef c3).1
                      (argv.getD
                        (if janet_checktype_symbol (argv.headD Janet.nil) then 1 else 0)
                        Janet.nil)
                      (janet_checktype_symbol (argv.headD Janet.nil)) (argv.headD Janet.nil)
                      arity va])
    ∧ (∀ (a0 : Janet) (body : List Janet) (c : JanetCompiler) (cond1 : JanetSlot)
          (c1 : JanetCompiler) (c2 crb : JanetCompiler) (cond2 : JanetSlot)
          (c4 cjr c5 : JanetCompiler) (ts : Nat) (c5a : JanetCompiler)
          (fd0 : JanetFuncDef) (c6 : JanetCompiler) (j : Nat) (dix : Nat)
          (c7 : JanetCompiler) (r2 : Nat) (c8 : JanetCompiler),
        body ≠ [] →
        value janetc_fopts_default a0 (janetc_scope c 0 "while") = (cond1, c1) →
        cond1.flags &&& JANET_SLOT_CONSTANT = 0 →
        whileBody value { janetc_fopts_default with flags := JANET_FOPTS_DROP } body
            (janetc_emit_si c1 JOP_JUMP_IF_NOT cond1 0 false).2 = c2 →
        c2.curScope.flags &&& JANET_SCOPE_CLOSURE ≠ 0 →
        janetc_scope
            { janetc_popscope (scopeAddFlags c2 JANET_SCOPE_UNUSED) with
                buffer := (janetc_popscope (scopeAddFlags c2
                  JANET_SCOPE_UNUSED)).buffer.take c.buffer.length,
                mapbuffer := (janetc_popscope (scopeAddFlags c2
                  JANET_SCOPE_UNUSED)).mapbuffer.take c.buffer.length }
            JANET_SCOPE_FUNCTION "while-iife" = crb →
        value { janetc_fopts_default with flags := JANET_FOPTS_DROP } a0 crb = (cond2, c4) →
        cond2.flags &&& JANET_SLOT_CONSTANT = 0 →
        janetc_emitD (janetc_emit_si c4 JOP_JUMP_IF cond2 2 false).2 JOP_RETURN_NIL = cjr →
        whileBody value { janetc_fopts_default with flags := JANET_FOPTS_DROP } body cjr
          = c5 →
        janetc_regalloc_temp c5 = (ts, c5a) →
        janetc_pop_funcdef
            (janetc_emitD (janetc_emitD c5a (JOP_LOAD_SELF ||| (ts <<< 8)))
              (JOP_TAILCALL ||| (ts <<< 8))) = (fd0, c6) →
        findFuncScopeIdx c6 = some j →
        janetc_addfuncdef c6 (fd0.withName "_while") = (dix, c7) →
        janetc_regalloc_temp c7 = (r2, c8) →
        janetc_while value opts (a0 :: body) c
            = (janetc_cslot Janet.nil,
               scopeAddFlags (janetc_regalloc_free
                 (janetc_emitD
                   (janetc_emitD c8 (JOP_CLOSURE ||| (r2 <<< 8) ||| (dix <<< 16)))
                   (JOP_CALL ||| (r2 <<< 8) ||| (r2 <<< 16))) r2) JANET_SCOPE_CLOSURE)
          ∧ dix = ((c6.scopes.getD j default).defs).length
          ∧ (c7.scopes.getD j default).defs
              = (c6.scopes.getD j default).defs ++ [fd0.withName "_while"]) := by
  refine ⟨?_, ?_, ?_, ?_⟩
  · intro c j h
    exact findFuncScope_spec c.scopes j h
  · intro c fd j h
    exact janetc_addfuncdef_spec c fd j h
  · intro argv c params arity va c2 c3 idx c5 ret c6 j hlen hview hparams hbody hfs hadd
      htarget hretc hrete hreti
    have hglue := janetc_fn_success_glue value opts argv c params arity va c2 c3 hlen hview
      hparams hbody
    have hregs : (c5.scopes.getD j default).defs
        = (((janetc_pop_funcdef c3).2).scopes.getD j default).defs
          ++ [fnBuildDef (janetc_pop_funcdef c3).1
                (argv.getD (if janet_checktype_symbol (argv.headD Janet.nil) then 1 else 0)
                  Janet.nil)
                (janet_checktype_symbol (argv.headD Janet.nil)) (argv.headD Janet.nil)
                arity va] := by
      have h2 := congrArg Prod.snd hadd
      simp only [] at h2
      rw [← h2]
      exact janetc_addfuncdef_registers _ _ j hfs
    have hidx : idx = (((janetc_pop_funcdef c3).2).scopes.getD j default).defs.length := by
      have h1 := congrArg Prod.fst hadd
      simp only [] at h1
      rw [← h1, janetc_addfuncdef_spec _ _ j hfs]
    refine ⟨?_, hidx, hregs⟩
    rw [hglue]
    unfold fnFinish
    rcases hpop : janetc_pop_funcdef c3 with ⟨fdp, cpop⟩
    rw [hpop] at hadd
    dsimp only [] at hadd
    dsimp only []
    rw [hadd]
    dsimp only []
    rw [htarget]
    dsimp only []
    unfold janetc_emit_su janetc_toreg
    have hcondreg : (ret.flags &&& JANET_SLOT_CONSTANT != 0 ||
        (decide (ret.envindex ≥ 0) : Bool) || (decide (ret.index < 0) : Bool)) = false := by
      simp [bne_iff_ne, hretc]
      omega
    rw [hcondreg]
    simp
  · intro a0 body c cond1 c1 c2 crb cond2 c4 cjr c5 ts c5a fd0 c6 j dix c7 r2 c8
      hb h1 hdyn1 h2 hclo hrb h3 hdyn2 hcj h4 h5 h6 hfsw h7 h8
    have hregs : (c7.scopes.getD j default).defs
        = (c6.scopes.getD j default).defs ++ [fd0.withName "_while"] := by
      have hx := congrArg Prod.snd h7
      simp only [] at hx
      rw [← hx]
      exact janetc_addfuncdef_registers _ _ j hfsw
    have hdix : dix = ((c6.scopes.getD j default).defs).length := by
      have hx := congrArg Prod.fst h7
      simp only [] at hx
      rw [← hx, janetc_addfuncdef_spec _ _ j hfsw]
    refine ⟨?_, hdix, hregs⟩
    have hlen2 : ¬ ((a0 :: body).length < 2) := by
      cases body with
      | nil => exact absurd rfl hb
      | cons x xs => simp [List.length_cons]
    have hc1 : (cond1.flags &&& JANET_SLOT_CONSTANT != 0) = false := by
      simp [hdyn1]
    have hc2 : (cond2.flags &&& JANET_SLOT_CONSTANT == 0) = true := by
      simp [hdyn2]
    have hcl : (c2.curScope.flags &&& JANET_SCOPE_CLOSURE != 0) = true := by
      simpa [bne_iff_ne] using hclo
    unfold janetc_while
    rw [if_neg hlen2]
    simp only [List.headD_cons, List.drop_one, List.tail_cons]
    rw [h1]
    simp only [hc1, Bool.false_and, Bool.false_eq_true, if_false]
    rw [h2]
    simp only [hcl, if_true]
    rw [hrb, h3]
    simp only [hc2, if_true]
    rw [hcj, h4, h5]
    simp only []
    rw [h6]
    simp only []
    rw [h7]
    simp only []
    rw [h8]

/-- Concrete intermediate states of the `fn` success path compiled from the
initial state, for the C8 instantiation. -/
def fdW : JanetFuncDef :=
  fnBuildDef (janetc_pop_funcdef c3W).1 (Janet.tuple [Janet.symbol "x"]) false
    (Janet.tuple [Janet.symbol "x"]) 1 false

def c5W : JanetCompiler := (janetc_addfuncdef (janetc_pop_funcdef c3W).2 fdW).2

def retW : JanetSlot := (janetc_gettarget janetc_fopts_default c5W).1

def c6W : JanetCompiler := (janetc_gettarget janetc_fopts_default c5W).2

/-- A register slot, as the dispatcher returns for a resolved local. -/
def regSlot1 : JanetSlot := { flags := 0, index := 1, envindex := -1, constant := Janet.nil }

/-- A sub-compiler whose conditions are dynamic register slots and whose
body forms mark the current scope CLOSURE, driving `while` into its
closure-rewrite path. -/
def cloValue : Value := fun _ x c =>
  match x with
  | Janet.symbol _ => (regSlot1, c)
  | _ => (janetc_cslot Janet.nil, scopeAddFlags c JANET_SCOPE_CLOSURE)

def dropFopts : JanetFopts := { janetc_fopts_default with flags := JANET_FOPTS_DROP }

/-- Concrete intermediate states of the `while` closure-rewrite path. -/
def wc1 : JanetCompiler := janetc_scope initComp 0 "while"

def wc2 : JanetCompiler :=
  whileBody cloValue dropFopts [Janet.nil]
    (janetc_emit_si wc1 JOP_JUMP_IF_NOT regSlot1 0 false).2

def wcrb : JanetCompiler :=
  janetc_scope
    { janetc_popscope (scopeAddFlags wc2 JANET_SCOPE_UNUSED) with
        buffer := (janetc_popscope (scopeAddFlags wc2
          JANET_SCOPE_UNUSED)).buffer.take initComp.buffer.length,
        mapbuffer := (janetc_popscope (scopeAddFlags wc2
          JANET_SCOPE_UNUSED)).mapbuffer.take initComp.buffer.length }
    JANET_SCOPE_FUNCTION "while-iife"

def wcjr : JanetCompiler :=
  janetc_emitD (janetc_emit_si wcrb JOP_JUMP_IF regSlot1 2 false).2 JOP_RETURN_NIL

def wc5 : JanetCompiler := whileBody cloValue dropFopts [Janet.nil] wcjr

def wts : Nat := (janetc_regalloc_temp wc5).1

def wc5a : JanetCompiler := (janetc_regalloc_temp wc5).2

def wpop : JanetFuncDef × JanetCompiler :=
  janetc_pop_funcdef
    (janetc_emitD (janetc_emitD wc5a (JOP_LOAD_SELF ||| (wts <<< 8)))
      (JOP_TAILCALL ||| (wts <<< 8)))

def wfd0 : JanetFuncDef := wpop.1

def wc6 : JanetCompiler := wpop.2

def wadd : Nat × JanetCompiler := janetc_addfuncdef wc6 (wfd0.withName "_while")

def wc7 : JanetCompiler := wadd.2

def wr2 : Nat := (janetc_regalloc_temp wc7).1

def wc8 : JanetCompiler := (janetc_regalloc_temp wc7).2

/-- C8 witness: the registration theorem applied at the initial state's
root scope, at a concrete successful `fn`, and at a concrete `while` whose
body creates a closure. -/
theorem funcdef_registration_witness :
    (0 < initComp.scopes.length
      ∧ (initComp.scopes.getD 0 default).flags &&& JANET_SCOPE_FUNCTION ≠ 0)
    ∧ janetc_addfuncdef initComp (JanetFuncDef.mk 0 0 none [] [] 0)
      = ((initComp.scopes.getD 0 default).defs.length,
         { initComp with scopes := initComp.scopes.set 0 ({ initComp.scopes.getD 0 default
             with defs := (initComp.scopes.getD 0 default).defs
               ++ [JanetFuncDef.mk 0 0 none [] [] 0] }) })
    ∧ (janetc_fn pureValue janetc_fopts_default [Janet.tuple [Janet.symbol "x"], Janet.nil]
          initComp
        = (retW, (janetc_emit c6W
            (JOP_CLOSURE ||| (retW.index.toNat <<< 8) ||| (0 <<< 16))).2)
      ∧ (0 : Nat) = (((janetc_pop_funcdef c3W).2).scopes.getD 0 default).defs.length
      ∧ (c5W.scopes.getD 0 default).defs
          = (((janetc_pop_funcdef c3W).2).scopes.getD 0 default).defs ++ [fdW])
    ∧ (janetc_while cloValue janetc_fopts_default [Janet.symbol "c", Janet.nil] initComp
        = (janetc_cslot Janet.nil,
           scopeAddFlags (janetc_regalloc_free
             (janetc_emitD
               (janetc_emitD wc8 (JOP_CLOSURE ||| (wr2 <<< 8) ||| (wadd.1 <<< 16)))
               (JOP_CALL ||| (wr2 <<< 8) ||| (wr2 <<< 16))) wr2) JANET_SCOPE_CLOSURE)
      ∧ wadd.1 = ((wc6.scopes.getD 0 default).defs).length
      ∧ (wc7.scopes.getD 0 default).defs
          = (wc6.scopes.getD 0 default).defs ++ [wfd0.withName "_while"]) :=
  ⟨⟨((funcdef_registration pureValue janetc_fopts_default).1 initComp 0 rfl).1,
    ((funcdef_registration pureValue janetc_fopts_default).1 initComp 0 rfl).2.1⟩,
   (funcdef_registration pureValue janetc_fopts_default).2.1 initComp
     (JanetFuncDef.mk 0 0 none [] [] 0) 0 rfl,
   (funcdef_registration pureValue janetc_fopts_default).2.2.1
     [Janet.tuple [Janet.symbol "x"], Janet.nil] initComp [Janet.symbol "x"] 1 false
     c2W c3W 0 c5W retW c6W 0 (by decide) rfl rfl rfl rfl rfl rfl (by decide) (by decide)
     (by decide),
   (funcdef_registration cloValue janetc_fopts_default).2.2.2 (Janet.symbol "c") [Janet.nil]
     initComp regSlot1 wc1 wc2 wcrb regSlot1 wcrb wcjr wc5 wts wc5a wfd0 wc6 0 wadd.1 wc7
     wr2 wc8 (List.cons_ne_nil _ _) rfl (by decide) rfl (by decide) rfl rfl (by decide) rfl
     rfl rfl rfl (by decide) rfl rfl⟩

/-- C5: for a `while` whose body creates no closure, the emitted loop
machinery is exactly one conditional exit check (emitted from a dynamic
condition; none at all when the condition is a truthy compile-time
constant) and exactly one unconditional back-jump, and both displacements
are patched after positions are final as target minus source: the exit
check (at the condition position) gets loop-end minus its own position in
bits 16 and up, and the back-jump (at the loop-bottom position) gets
loop-top minus its own position in bits 8 and up. -/
theorem while_jump_patching (value : Value) (opts : JanetFopts) :
    (∀ (a0 : Janet) (body : List Janet) (c : JanetCompiler) (cond : JanetSlot)
        (c1 cchk c2 : JanetCompiler),
      body ≠ [] →
      value janetc_fopts_default a0 (janetc_scope c 0 "while") = (cond, c1) →
      cond.flags &&& JANET_SLOT_CONSTANT = 0 →
      cond.envindex < 0 →
      0 ≤ cond.index →
      ({ c1 with
          buffer := c1.buffer ++ [(JOP_JUMP_IF_NOT ||| (cond.index.toNat <<< 8)) % TWO32],
          mapbuffer := c1.mapbuffer ++ [0] } : JanetCompiler) = cchk →
      whileBody value { janetc_fopts_default with flags := JANET_FOPTS_DROP } body cchk = c2 →
      c2.curScope.flags &&& JANET_SCOPE_CLOSURE = 0 →
      (janetc_while value opts (a0 :: body) c
          = (janetc_cslot Janet.nil,
             janetc_popscope
               (janetc_patch
                 (janetc_patch
                   { c2 with buffer := c2.buffer ++ [JOP_JUMP % TWO32],
                             mapbuffer := c2.mapbuffer ++ [0] }
                   c1.buffer.length
                   (((c2.buffer.length : Int) + 1) - (c1.buffer.length : Int)) 16)
                 c2.buffer.length
                 ((c.buffer.length : Int) - (c2.buffer.length : Int)) 8)))
        ∧ (janetc_while value opts (a0 :: body) c).2.buffer.length = c2.buffer.length + 1
        ∧ (c2.buffer[c1.buffer.length]?
              = some ((JOP_JUMP_IF_NOT ||| (cond.index.toNat <<< 8)) % TWO32) →
            (janetc_while value opts (a0 :: body) c).2.buffer.getD c2.buffer.length 0
              = (JOP_JUMP % TWO32)
                ||| encodeDisp ((c.buffer.length : Int) - (c2.buffer.length : Int)) 8
            ∧ (janetc_while value opts (a0 :: body) c).2.buffer.getD c1.buffer.length 0
              = ((JOP_JUMP_IF_NOT ||| (cond.index.toNat <<< 8)) % TWO32)
                ||| encodeDisp (((c2.buffer.length : Int) + 1) - (c1.buffer.length : Int))
                  16))
    ∧ (∀ (a0 : Janet) (body : List Janet) (c : JanetCompiler) (cond : JanetSlot)
        (c1 c2 : JanetCompiler),
      body ≠ [] →
      value janetc_fopts_default a0 (janetc_scope c 0 "while") = (cond, c1) →
      cond.flags &&& JANET_SLOT_CONSTANT ≠ 0 →
      janet_truthy cond.constant = true →
      whileBody value { janetc_fopts_default with flags := JANET_FOPTS_DROP } body c1 = c2 →
      c2.curScope.flags &&& JANET_SCOPE_CLOSURE = 0 →
      (janetc_while value opts (a0 :: body) c
          = (janetc_cslot Janet.nil,
             janetc_popscope
               (janetc_patch
                 { c2 with buffer := c2.buffer ++ [JOP_JUMP % TWO32],
                           mapbuffer := c2.mapbuffer ++ [0] }
                 c2.buffer.length
                 ((c.buffer.length : Int) - (c2.buffer.length : Int)) 8)))
        ∧ (janetc_while value opts (a0 :: body) c).2.buffer.length = c2.buffer.length + 1
        ∧ (janetc_while value opts (a0 :: body) c).2.buffer.getD c2.buffer.length 0
            = (JOP_JUMP % TWO32)
              ||| encodeDisp ((c.buffer.length : Int) - (c2.buffer.length : Int)) 8) := by
  constructor
  · intro a0 body c cond c1 cchk c2 hb h1 hdyn he hi hchk h2 hnoclo
    have hlen2 : ¬ ((a0 :: body).length < 2) := by
      cases body with
      | nil => exact absurd rfl hb
      | cons x xs => simp [List.length_cons]
    have hc1 : (cond.flags &&& JANET_SLOT_CONSTANT != 0) = false := by
      simp [hdyn]
    have hcl : (c2.curScope.flags &&& JANET_SCOPE_CLOSURE != 0) = false := by
      simp [hnoclo]
    have hsi : janetc_emit_si c1 JOP_JUMP_IF_NOT cond 0 false = (c1.buffer.length, cchk) := by
      unfold janetc_emit_si janetc_toreg
      have hcnd : (cond.flags &&& JANET_SLOT_CONSTANT != 0 ||
          (decide (cond.envindex ≥ 0) : Bool) || (decide (cond.index < 0) : Bool))
          = false := by
        simp [hc1]
        omega
      rw [hcnd]
      simp only [Bool.false_eq_true, if_false, janetc_emit, Bool.false_and]
      rw [← hchk]
      have hz : JOP_JUMP_IF_NOT ||| (cond.index.toNat <<< 8) ||| encodeDisp 0 16
          = JOP_JUMP_IF_NOT ||| (cond.index.toNat <<< 8) := by
        have hzz : encodeDisp 0 16 = 0 := by decide
        rw [hzz]
        exact Nat.or_zero _
      rw [hz]
    have main : janetc_while value opts (a0 :: body) c
        = (janetc_cslot Janet.nil,
           janetc_popscope
             (janetc_patch
               (janetc_patch
                 { c2 with buffer := c2.buffer ++ [JOP_JUMP % TWO32],
                           mapbuffer := c2.mapbuffer ++ [0] }
                 c1.buffer.length
                 (((c2.buffer.length : Int) + 1) - (c1.buffer.length : Int)) 16)
               c2.buffer.length
               ((c.buffer.length : Int) - (c2.buffer.length : Int)) 8)) := by
      unfold janetc_while
      rw [if_neg hlen2]
      simp only [List.headD_cons, List.drop_one, List.tail_cons]
      rw [h1]
      simp only [hc1, Bool.false_and, Bool.false_eq_true, if_false]
      rw [hsi]
      simp only []
      rw [h2]
      simp only [hcl, Bool.false_eq_true, if_false, janetc_emitD, janetc_emit]
      simp only [List.length_append, List.length_cons, List.length_nil]
      norm_num
    refine ⟨main, ?_, ?_⟩
    · rw [main]
      simp [janetc_popscope_buffer, janetc_patch]
    · intro hpre
      rcases List.getElem?_eq_some.mp hpre with ⟨hw, -⟩
      have hBc : (c2.buffer ++ [JOP_JUMP % TWO32])[c1.buffer.length]?
          = some ((JOP_JUMP_IF_NOT ||| (cond.index.toNat <<< 8)) % TWO32) := by
        rw [List.getElem?_append_left hw]
        exact hpre
      have hBjt : (c2.buffer ++ [JOP_JUMP % TWO32])[c2.buffer.length]?
          = some (JOP_JUMP % TWO32) := List.getElem?_concat_length _ _
      have hgd1 : (c2.buffer ++ [JOP_JUMP % TWO32]).getD c1.buffer.length 0
          = (JOP_JUMP_IF_NOT ||| (cond.index.toNat <<< 8)) % TWO32 := by
        rw [List.getD_eq_getElem?_getD, hBc]
        rfl
      have hne : c1.buffer.length ≠ c2.buffer.length := by omega
      have hB1jt : ((c2.buffer ++ [JOP_JUMP % TWO32]).set c1.buffer.length
            (((JOP_JUMP_IF_NOT ||| (cond.index.toNat <<< 8)) % TWO32)
              ||| encodeDisp (((c2.buffer.length : Int) + 1) - (c1.buffer.length : Int))
                16))[c2.buffer.length]?
          = some (JOP_JUMP % TWO32) := by
        rw [List.getElem?_set_ne hne]
        exact hBjt
      have hB1c : ((c2.buffer ++ [JOP_JUMP % TWO32]).set c1.buffer.length
            (((JOP_JUMP_IF_NOT ||| (cond.index.toNat <<< 8)) % TWO32)
              ||| encodeDisp (((c2.buffer.length : Int) + 1) - (c1.buffer.length : Int))
                16))[c1.buffer.length]?
          = some (((JOP_JUMP_IF_NOT ||| (cond.index.toNat <<< 8)) % TWO32)
              ||| encodeDisp (((c2.buffer.length : Int) + 1) - (c1.buffer.length : Int))
                16) :=
        List.getElem?_set_eq_of_lt _ (by simp; omega)
      have hgdB1 : ((c2.buffer ++ [JOP_JUMP % TWO32]).set c1.buffer.length
            (((JOP_JUMP_IF_NOT ||| (cond.index.toNat <<< 8)) % TWO32)
              ||| encodeDisp (((c2.buffer.length : Int) + 1) - (c1.buffer.length : Int))
                16)).getD c2.buffer.length 0 = JOP_JUMP % TWO32 := by
        rw [List.getD_eq_getElem?_getD, hB1jt]
        rfl
      constructor
      · rw [main]
        simp only [janetc_popscope_buffer, janetc_patch]
        rw [hgd1]
        rw [hgdB1]
        rw [List.getD_eq_getElem?_getD]
        rw [List.getElem?_set_eq_of_lt _ (by simp)]
        rfl
      · rw [main]
        simp only [janetc_popscope_buffer, janetc_patch]
        rw [hgd1]
        rw [hgdB1]
        rw [List.getD_eq_getElem?_getD]
        rw [List.getElem?_set_ne (Ne.symm hne)]
        rw [hB1c]
        rfl
  · intro a0 body c cond c1 c2 hb h1 hconst htr h2 hnoclo
    have hlen2 : ¬ ((a0 :: body).length < 2) := by
      cases body with
      | nil => exact absurd rfl hb
      | cons x xs => simp [List.length_cons]
    have hc1 : (cond.flags &&& JANET_SLOT_CONSTANT != 0) = true := by
      simpa [bne_iff_ne] using hconst
    have hcl : (c2.curScope.flags &&& JANET_SCOPE_CLOSURE != 0) = false := by
      simp [hnoclo]
    have main : janetc_while value opts (a0 :: body) c
        = (janetc_cslot Janet.nil,
           janetc_popscope
             (janetc_patch
               { c2 with buffer := c2.buffer ++ [JOP_JUMP % TWO32],
                         mapbuffer := c2.mapbuffer ++ [0] }
               c2.buffer.length
               ((c.buffer.length : Int) - (c2.buffer.length : Int)) 8)) := by
      unfold janetc_while
      rw [if_neg hlen2]
      simp only [List.headD_cons, List.drop_one, List.tail_cons]
      rw [h1]
      simp only [hc1, htr, Bool.true_and, Bool.not_true, Bool.false_eq_true, if_false,
        Bool.and_false, if_true]
      rw [h2]
      simp only [hcl, Bool.false_eq_true, if_false, janetc_emitD, janetc_emit]
    refine ⟨main, ?_, ?_⟩
    · rw [main]
      simp [janetc_popscope_buffer, janetc_patch]
    · rw [main]
      simp only [janetc_popscope_buffer, janetc_patch]
      rw [List.getD_eq_getElem?_getD]
      have hgd : (c2.buffer ++ [JOP_JUMP % TWO32]).getD c2.buffer.length 0
          = JOP_JUMP % TWO32 := by
        rw [List.getD_eq_getElem?_getD, List.getElem?_concat_length]
        rfl
      rw [hgd]
      rw [List.getElem?_set_eq_of_lt _ (by simp)]
      rfl

/-- A sub-compiler whose conditions are dynamic register slots and whose
other expressions are pure constants, driving `while` through its ordinary
(no-closure) path. -/
def condValue : Value := fun _ x c =>
  match x with
  | Janet.symbol _ => (regSlot1, c)
  | _ => (janetc_cslot Janet.nil, c)

/-- A sub-compiler that returns boolean literals as constant slots. -/
def constTrueValue : Value := fun _ x c =>
  match x with
  | Janet.boolean b => (janetc_cslot (Janet.boolean b), c)
  | _ => (janetc_cslot Janet.nil, c)

def vchk : JanetCompiler :=
  { wc1 with buffer := wc1.buffer ++ [(JOP_JUMP_IF_NOT ||| (1 <<< 8)) % TWO32],
             mapbuffer := wc1.mapbuffer ++ [0] }

def vc2 : JanetCompiler := whileBody condValue dropFopts [Janet.nil] vchk

def tc2 : JanetCompiler := whileBody constTrueValue dropFopts [Janet.nil] wc1

/-- C5 witness: the patching theorem applied at a concrete dynamic loop and
at a concrete constant-true loop. -/
theorem while_jump_patching_witness :
    (janetc_while condValue janetc_fopts_default [Janet.symbol "c", Janet.nil] initComp
        = (janetc_cslot Janet.nil,
           janetc_popscope
             (janetc_patch
               (janetc_patch
                 { vc2 with buffer := vc2.buffer ++ [JOP_JUMP % TWO32],
                            mapbuffer := vc2.mapbuffer ++ [0] }
                 wc1.buffer.length
                 (((vc2.buffer.length : Int) + 1) - (wc1.buffer.length : Int)) 16)
               vc2.buffer.length
               ((initComp.buffer.length : Int) - (vc2.buffer.length : Int)) 8))
      ∧ (janetc_while condValue janetc_fopts_default [Janet.symbol "c", Janet.nil]
          initComp).2.buffer.getD vc2.buffer.length 0
        = (JOP_JUMP % TWO32)
          ||| encodeDisp ((initComp.buffer.length : Int) - (vc2.buffer.length : Int)) 8
      ∧ (janetc_while condValue janetc_fopts_default [Janet.symbol "c", Janet.nil]
          initComp).2.buffer.getD wc1.buffer.length 0
        = ((JOP_JUMP_IF_NOT ||| (regSlot1.index.toNat <<< 8)) % TWO32)
          ||| encodeDisp (((vc2.buffer.length : Int) + 1) - (wc1.buffer.length : Int)) 16)
    ∧ (janetc_while constTrueValue janetc_fopts_default [Janet.boolean true, Janet.nil]
          initComp
        = (janetc_cslot Janet.nil,
           janetc_popscope
             (janetc_patch
               { tc2 with buffer := tc2.buffer ++ [JOP_JUMP % TWO32],
                          mapbuffer := tc2.mapbuffer ++ [0] }
               tc2.buffer.length
               ((initComp.buffer.length : Int) - (tc2.buffer.length : Int)) 8))
      ∧ (janetc_while constTrueValue janetc_fopts_default [Janet.boolean true, Janet.nil]
          initComp).2.buffer.length = tc2.buffer.length + 1) :=
  ⟨⟨((while_jump_patching condValue janetc_fopts_default).1 (Janet.symbol "c") [Janet.nil]
      initComp regSlot1 wc1 vchk vc2 (List.cons_ne_nil _ _) rfl (by decide) (by decide)
      (by decide) rfl rfl (by decide)).1,
    (((while_jump_patching condValue janetc_fopts_default).1 (Janet.symbol "c") [Janet.nil]
      initComp regSlot1 wc1 vchk vc2 (List.cons_ne_nil _ _) rfl (by decide) (by decide)
      (by decide) rfl rfl (by decide)).2.2 (by decide)).1,
    (((while_jump_patching condValue janetc_fopts_default).1 (Janet.symbol "c") [Janet.nil]
      initComp regSlot1 wc1 vchk vc2 (List.cons_ne_nil _ _) rfl (by decide) (by decide)
      (by decide) rfl rfl (by decide)).2.2 (by decide)).2⟩,
   ⟨((while_jump_patching constTrueValue janetc_fopts_default).2 (Janet.boolean true)
      [Janet.nil] initComp (janetc_cslot (Janet.boolean true)) wc1 tc2
      (List.cons_ne_nil _ _) rfl (by decide) rfl rfl (by decide)).1,
    ((while_jump_patching constTrueValue janetc_fopts_default).2 (Janet.boolean true)
      [Janet.nil] initComp (janetc_cslot (Janet.boolean true)) wc1 tc2
      (List.cons_ne_nil _ _) rfl (by decide) rfl rfl (by decide)).2.1⟩⟩

end JanetSpecials
